import Mathlib

/-!
Verification of the wslink aiohttp websocket server protocol handler
(src/python/src/wslink/aiohttp_websocket_server_protocol.py).

The Python source is shallowly embedded: JSON values become the inductive
type JVal (with a constructor for Python bytes objects, which are valid
inside RPC argument trees but are rejected by json.dumps), the mutable
handler object becomes the record HState threaded through the functions,
websocket sends and publish-manager calls become elements of an explicit
Event trace, and Python exceptions become the PyErr-carrying outcome of
each function.  The publish manager lives in another module of the
repository that is not part of the sources here; its refcount operations
are modelled from the spec (section 4.3) and are marked as such below.
-/

namespace Wslink

/-- Python bytes payloads, as a list of byte values. -/
abbrev Bytes := List Nat

/-- The Python exceptions that can escape the embedded code paths. -/
inductive PyErr where
  | jsonDecodeError
  | keyError
  | typeError
  | attributeError
deriving DecidableEq, Repr

/-- Modelled from the spec: the error codes live in the publish module,
which is outside the given sources.  Per section 4.3 the exact numeric
values are implementation choices that only need to be stable and
distinct, so we fix four distinct integers. -/
def AUTHENTICATION_ERROR : Int := 1

/-- Modelled from the spec: see AUTHENTICATION_ERROR. -/
def METHOD_NOT_FOUND : Int := 2

/-- Modelled from the spec: see AUTHENTICATION_ERROR. -/
def EXCEPTION_ERROR : Int := 3

/-- Modelled from the spec: see AUTHENTICATION_ERROR. -/
def RESULT_SERIALIZE_ERROR : Int := 4

/-- aiohttp WSCloseCode.GOING_AWAY. -/
def goingAway : Nat := 1001

/-- A Python value as it can occur in the RPC trees of the handler:
the JSON values produced by json.loads, plus bytes objects substituted
for attachment placeholders (bytes are not serializable by json.dumps). -/
inductive JVal where
  | null
  | bool (b : Bool)
  | num (n : Int)
  | str (s : String)
  | bytes (bs : Bytes)
  | arr (xs : List JVal)
  | obj (kvs : List (String × JVal))

mutual

/-- Python structural equality on RPC values (the == used by dict lookups
on placeholder keys; the bool-int crossover of Python == never matters on
the paths modelled here, where at least one side is a string). -/
def beqJ : JVal → JVal → Bool
  | .null, .null => true
  | .bool a, .bool b => a == b
  | .num a, .num b => a == b
  | .str a, .str b => a == b
  | .bytes a, .bytes b => a == b
  | .arr a, .arr b => beqJL a b
  | .obj a, .obj b => beqJO a b
  | _, _ => false

def beqJL : List JVal → List JVal → Bool
  | [], [] => true
  | x :: xs, y :: ys => beqJ x y && beqJL xs ys
  | _, _ => false

def beqJO : List (String × JVal) → List (String × JVal) → Bool
  | [], [] => true
  | (k, v) :: xs, (l, w) :: ys => k == l && beqJ v w && beqJO xs ys
  | _, _ => false

end

/-- Python truthiness of an RPC value, as tested on the first hello
argument and on the data value of sendWrappedError. -/
def truthy : JVal → Bool
  | .null => false
  | .bool b => b
  | .num n => !(n == 0)
  | .str s => !(s == "")
  | .bytes bs => !bs.isEmpty
  | .arr xs => !xs.isEmpty
  | .obj kvs => !kvs.isEmpty

/-- Whether a Python value is hashable (usable as a dict key or for a
dict membership test); lists and dicts are not. -/
def hashableJ : JVal → Bool
  | .arr _ => false
  | .obj _ => false
  | _ => true

/-- Python == between an RPC value and a string: true exactly for the
equal string. -/
def jEqStr (v : JVal) (s : String) : Bool :=
  match v with
  | .str t => t == s
  | _ => false

mutual

/-- A value consists only of JSON constructors (no bytes anywhere): the
values json.loads can produce and json.dumps accepts. -/
def jsonLike : JVal → Bool
  | .null => true
  | .bool _ => true
  | .num _ => true
  | .str _ => true
  | .bytes _ => false
  | .arr xs => jsonLikeL xs
  | .obj kvs => jsonLikeO kvs

def jsonLikeL : List JVal → Bool
  | [] => true
  | x :: xs => jsonLike x && jsonLikeL xs

def jsonLikeO : List (String × JVal) → Bool
  | [] => true
  | (_, v) :: xs => jsonLike v && jsonLikeO xs

end

/-- Dict lookup on a decoded JSON object (string keys are unique in any
dict produced by json.loads). -/
def lookupKV (kvs : List (String × JVal)) (k : String) : Option JVal :=
  match kvs with
  | [] => none
  | (k0, v) :: rest => if k0 == k then some v else lookupKV rest k

/-- Whether a decoded JSON object carries a given key. -/
def hasKeyO (kvs : List (String × JVal)) (k : String) : Bool :=
  (lookupKV kvs k).isSome

/- ---------------------------------------------------------------------
String helpers, written over the underlying character lists so that the
kernel can evaluate them on concrete inputs.
--------------------------------------------------------------------- -/

/-- Whether the first list is an initial segment of the second. -/
def listStarts : List Char → List Char → Bool
  | [], _ => true
  | _ :: _, [] => false
  | n :: ns, h :: hs => n == h && listStarts ns hs

/-- Whether the first list occurs contiguously inside the second. -/
def listInfixOf (needle : List Char) : List Char → Bool
  | [] => listStarts needle []
  | h :: hs => listStarts needle (h :: hs) || listInfixOf needle hs

/-- Python substring containment: key in encMsg. -/
def strContains (hay needle : String) : Bool :=
  listInfixOf needle.data hay.data

/-- Index of the first occurrence of needle inside a character list. -/
def firstOccAux (needle : List Char) : List Char → Nat → Option Nat
  | [], i => if listStarts needle [] then some i else none
  | c :: cs, i =>
    if listStarts needle (c :: cs) then some i else firstOccAux needle cs (i + 1)

/-- Index of the first occurrence of needle inside hay, if any. -/
def firstOcc (hay needle : String) : Option Nat :=
  firstOccAux needle.data hay.data 0

/-- Python rpcid.split(":")[0]: the characters before the first colon. -/
def pySplitHead (s : String) : List Char :=
  s.data.takeWhile (fun c => !(c == ':'))

/-- Strip an expected leading segment from a character list. -/
def stripPre : List Char → List Char → Option (List Char)
  | [], rest => some rest
  | _ :: _, [] => none
  | p :: ps, c :: cs => if p == c then stripPre ps cs else none

/-- Python re.match of the pattern anchored wslink_bin digits dollar
against a string: the prefix wslink_bin followed by one or more digits,
where the dollar anchor also matches just before one trailing newline
(CPython semantics of the dollar).  Digits are modelled as the ASCII
decimal digits. -/
def isPlaceholder (s : String) : Bool :=
  match stripPre "wslink_bin".data s.data with
  | none => false
  | some rest =>
    let core := if rest.getLast? == some '\n' then rest.dropLast else rest
    !core.isEmpty && core.all Char.isDigit

/- ---------------------------------------------------------------------
JSON serialization: json.dumps(..., ensure_ascii=False) with the default
separators.  Bytes values (and only they) raise TypeError, modelled as
none.
--------------------------------------------------------------------- -/

/-- One lowercase hexadecimal digit. -/
def hexDigit (k : Nat) : Char :=
  if k < 10 then Char.ofNat (48 + k) else Char.ofNat (87 + (k % 16))

/-- Four lowercase hexadecimal digits, as in the json escape for control
characters. -/
def hex4 (n : Nat) : String :=
  ⟨[hexDigit ((n / 4096) % 16), hexDigit ((n / 256) % 16),
    hexDigit ((n / 16) % 16), hexDigit (n % 16)]⟩

/-- How json.dumps renders one character inside a string literal
(ensure_ascii=False: non-ASCII characters are kept literally). -/
def escChar (c : Char) : String :=
  if c = '"' then "\\\""
  else if c = '\\' then "\\\\"
  else if c = '\n' then "\\n"
  else if c = '\r' then "\\r"
  else if c = '\t' then "\\t"
  else if c = Char.ofNat 8 then "\\b"
  else if c = Char.ofNat 12 then "\\f"
  else if c.toNat < 32 then "\\u" ++ hex4 c.toNat
  else String.singleton c

/-- json.dumps rendering of a string literal. -/
def jsonQuote (s : String) : String :=
  "\"" ++ String.join (s.data.map escChar) ++ "\""

mutual

/-- json.dumps with ensure_ascii=False and the default separators; none
models the TypeError raised on a bytes value. -/
def serializeJ : JVal → Option String
  | .null => some "null"
  | .bool true => some "true"
  | .bool false => some "false"
  | .num n => some (toString n)
  | .str s => some (jsonQuote s)
  | .bytes _ => none
  | .arr xs =>
    (serializeL xs).map (fun parts => "[" ++ String.intercalate ", " parts ++ "]")
  | .obj kvs =>
    (serializeO kvs).map (fun parts => "\x7b" ++ String.intercalate ", " parts ++ "\x7d")

def serializeL : List JVal → Option (List String)
  | [] => some []
  | x :: xs =>
    match serializeJ x, serializeL xs with
    | some s, some rest => some (s :: rest)
    | _, _ => none

def serializeO : List (String × JVal) → Option (List String)
  | [] => some []
  | (k, v) :: xs =>
    match serializeJ v, serializeO xs with
    | some s, some rest => some ((jsonQuote k ++ ": " ++ s) :: rest)
    | _, _ => none

end

/- ---------------------------------------------------------------------
Received-attachments dict (per session): keys are the Python values taken
from attachment headers (strings on the intended path, but the wire can
deliver any decoded JSON value), values are raw bytes.
--------------------------------------------------------------------- -/

/-- Dict lookup keyed by Python equality. -/
def recvLookup (m : List (JVal × Bytes)) (k : JVal) : Option Bytes :=
  match m with
  | [] => none
  | (k0, b) :: rest => if beqJ k0 k then some b else recvLookup rest k

/-- Dict deletion (the key is present at most once in a Python dict). -/
def recvDel (m : List (JVal × Bytes)) (k : JVal) : List (JVal × Bytes) :=
  match m with
  | [] => []
  | (k0, b) :: rest => if beqJ k0 k then rest else (k0, b) :: recvDel rest k

/-- Dict assignment: update in place, or append a new key. -/
def recvInsert (m : List (JVal × Bytes)) (k : JVal) (v : Bytes) : List (JVal × Bytes) :=
  match m with
  | [] => [(k, v)]
  | (k0, b) :: rest =>
    if beqJ k0 k then (k0, v) :: rest else (k0, b) :: recvInsert rest k v

mutual

/-- findAttachments from WslinkHandler.onMessage: recursively traverse an
argument tree; a string that matches the placeholder pattern and is a key
of the received-attachments dict is replaced by the stored bytes and its
entry is deleted; lists and dicts are rewritten elementwise in order; all
other values are returned unchanged.  The dict is threaded through the
traversal because the source deletes entries as it substitutes. -/
def findAtt : JVal → List (JVal × Bytes) → JVal × List (JVal × Bytes)
  | .str s, m =>
    if isPlaceholder s then
      match recvLookup m (.str s) with
      | some b => (.bytes b, recvDel m (.str s))
      | none => (.str s, m)
    else (.str s, m)
  | .arr xs, m =>
    let p := findAttL xs m
    (.arr p.1, p.2)
  | .obj kvs, m =>
    let p := findAttO kvs m
    (.obj p.1, p.2)
  | v, m => (v, m)

def findAttL : List JVal → List (JVal × Bytes) → List JVal × List (JVal × Bytes)
  | [], m => ([], m)
  | x :: xs, m =>
    let p := findAtt x m
    let q := findAttL xs p.2
    (p.1 :: q.1, q.2)

def findAttO : List (String × JVal) → List (JVal × Bytes) →
    List (String × JVal) × List (JVal × Bytes)
  | [], m => ([], m)
  | (k, v) :: xs, m =>
    let p := findAtt v m
    let q := findAttO xs p.2
    ((k, p.1) :: q.1, q.2)

end

/- ---------------------------------------------------------------------
Publish attachment map.  The map itself and its refcount operations live
in the publish module, which is not among the given sources; they are
modelled from the spec, section 4.3.
--------------------------------------------------------------------- -/

/-- One entry of the process-wide publish attachment map. -/
structure PubEntry where
  key : String
  blob : Bytes
  refcount : Nat
deriving Repr

/-- Modelled from the spec: registerAttachment increments the refcount of
a stored key. -/
def pmRegister (m : List PubEntry) (k : String) : List PubEntry :=
  m.map (fun e => if e.key == k then ⟨e.key, e.blob, e.refcount + 1⟩ else e)

/-- Modelled from the spec: unregisterAttachment decrements the refcount
of a stored key. -/
def pmUnregister (m : List PubEntry) (k : String) : List PubEntry :=
  m.map (fun e => if e.key == k then ⟨e.key, e.blob, e.refcount - 1⟩ else e)

/-- Modelled from the spec: freeAttachments removes the listed keys whose
refcount has returned to zero; keys still referenced remain. -/
def pmFree (m : List PubEntry) (keys : List String) : List PubEntry :=
  m.filter (fun e => !(keys.contains e.key && e.refcount == 0))

/-- Refcount of a key in the map (0 if absent). -/
def refOf (m : List PubEntry) (k : String) : Nat :=
  match m.find? (fun e => e.key == k) with
  | some e => e.refcount
  | none => 0

/- ---------------------------------------------------------------------
Handler state and observable events.
--------------------------------------------------------------------- -/

/-- Outcome of invoking a registered RPC callable: a returned value or a
raised exception (carrying its repr and formatted traceback). -/
inductive RpcRes where
  | ok (v : JVal)
  | raise (reprS : String) (trace : String)

/-- Behaviour of a registered RPC callable, applied to the substituted
positional arguments and keyword arguments.  The source inserts the
protocol object at position 0 of args before the call; the object is not
an RPC value and is absorbed into the callable here. -/
def RpcFun : Type := List JVal → List (String × JVal) → RpcRes

/-- The mutable state of one WslinkHandler (plus the spec-modelled
publish attachment map it talks to, and the secret attribute of its
server protocol object, which is assumed to be set). -/
structure HState where
  functionMap : List (String × RpcFun)
  attachmentsReceived : List (JVal × Bytes)
  attachmentsRecvQueue : List JVal
  connections : List String
  protocolSecret : String
  handlerSecret : Option String
  pubMap : List PubEntry

/-- WslinkHandler.setSecret: writes the secret attribute of the handler
object itself. -/
def setSecret (st : HState) (newSecret : String) : HState :=
  { st with handlerSecret := some newSecret }

/-- The observable actions of the handler: websocket sends (a text send
carries the object whose json.dumps text goes on the wire), the
publish-manager refcount calls, and the lifecycle actions. -/
inductive Event where
  | sendText (client : String) (msg : JVal)
  | sendBytes (client : String) (payload : Bytes)
  | registerAtt (key : String)
  | unregisterAtt (key : String)
  | freeAtts (keys : List String)
  | cancelShutdown
  | scheduleShutdown (delay : Nat)
  | closeConn (client : String) (code : Nat) (reason : String)
  | runnerCleanup
  | resolveRunning

/-- Outcome of running a handler coroutine: normal completion or a
propagating Python exception; both carry the state mutations and the
sends performed before the outcome. -/
inductive PyOutcome where
  | ok (st : HState) (evs : List Event)
  | exn (e : PyErr) (st : HState) (evs : List Event)

/-- Placeholder repr strings for the modelled Python exceptions (their
exact text is irrelevant to the claims). -/
def pyReprStr : PyErr → String
  | .jsonDecodeError => "JSONDecodeError()"
  | .keyError => "KeyError()"
  | .typeError => "TypeError()"
  | .attributeError => "AttributeError()"

/-- Placeholder traceback text for the modelled Python exceptions. -/
def pyTraceStr (e : PyErr) : String :=
  "Traceback: " ++ pyReprStr e

/- ---------------------------------------------------------------------
The send paths.
--------------------------------------------------------------------- -/

/-- The wrapper dict built by sendWrappedMessage. -/
def resultWrapper (rpcid : String) (content : JVal) : JVal :=
  .obj [("wslink", .str "1.0"), ("id", .str rpcid), ("result", content)]

/-- The wrapper dict built by sendWrappedError; the data member is added
only when the data value is truthy. -/
def errorWrapper (rpcid : String) (code : Int) (message : String) (data : JVal) : JVal :=
  .obj [("wslink", .str "1.0"), ("id", .str rpcid),
        ("error", .obj ([("code", .num code), ("message", .str message)] ++
          (if truthy data then [("data", data)] else [])))]

/-- The attachment header sent before each binary frame. -/
def headerObj (k : String) : JVal :=
  .obj [("wslink", .str "1.0"), ("method", .str "wslink.binary.attachment"),
        ("args", .arr [.str k])]

/-- The receivers of a send: the one connection of a truthy client id
(KeyError if it is not in the table), or every connection otherwise. -/
def targetsOf (conns : List String) (clientId : Option String) : Except PyErr (List String) :=
  match clientId with
  | some c =>
    if c == "" then .ok conns
    else if conns.contains c then .ok [c] else .error .keyError
  | none => .ok conns

/-- WslinkHandler.sendWrappedError: build the error wrapper, serialize it
(an unserializable data value would raise out of the method), and send
the text to each receiver. -/
def sendWrappedError (st : HState) (rpcid : String) (code : Int) (message : String)
    (data : JVal) (clientId : Option String) : Except PyErr (List Event) :=
  let wrapper := errorWrapper rpcid code message data
  match serializeJ wrapper with
  | none => .error .typeError
  | some _ =>
    match targetsOf st.connections clientId with
    | .error e => .error e
    | .ok targets => .ok (targets.map (fun c => Event.sendText c wrapper))

/-- The attachment scan loop of sendWrappedMessage: iterate over the
snapshot of the publish attachment map; for each key that occurs as a
substring of the serialized message, append it to found (deduplicated),
increment its refcount, send the single-key header followed by the binary
frame to every receiver, and decrement the refcount.  Returns the updated
live map, the found keys, and the emitted events. -/
def scanLoop (snap : List PubEntry) (encMsg : String) (targets : List String)
    (m : List PubEntry) (found : List String) :
    List PubEntry × List String × List Event :=
  match snap with
  | [] => (m, found, [])
  | e :: rest =>
    if strContains encMsg e.key then
      let found1 := if found.contains e.key then found else found ++ [e.key]
      let m1 := pmRegister m e.key
      let pairEvs :=
        (targets.map (fun c => [Event.sendText c (headerObj e.key),
                                Event.sendBytes c e.blob])).flatten
      let m2 := pmUnregister m1 e.key
      let r := scanLoop rest encMsg targets m2 found1
      (r.1, r.2.1,
        Event.registerAtt e.key :: (pairEvs ++ (Event.unregisterAtt e.key :: r.2.2)))
    else scanLoop rest encMsg targets m found

/-- WslinkHandler.sendWrappedMessage: build the result wrapper; if
json.dumps raises TypeError, fall back to a RESULT_SERIALIZE_ERROR error
reply; otherwise compute the receivers, run the attachment scan when the
publish map snapshot is non-empty (calling freeAttachments on the found
keys right after the scan), and finally send the serialized message. -/
def sendWrappedMessage (st : HState) (rpcid : String) (content : JVal) (method : String)
    (clientId : Option String) : Except PyErr (HState × List Event) :=
  let wrapper := resultWrapper rpcid content
  match serializeJ wrapper with
  | none =>
    (sendWrappedError st rpcid RESULT_SERIALIZE_ERROR
      "Method result cannot be serialized" (.str method) clientId).map
      (fun evs => (st, evs))
  | some encMsg =>
    match targetsOf st.connections clientId with
    | .error e => .error e
    | .ok targets =>
      if st.pubMap.isEmpty then
        .ok (st, targets.map (fun c => Event.sendText c wrapper))
      else
        let r := scanLoop st.pubMap encMsg targets st.pubMap []
        .ok ({ st with pubMap := pmFree r.1 r.2.1 },
          r.2.2 ++ (Event.freeAtts r.2.1 :: targets.map (fun c => Event.sendText c wrapper)))

/- ---------------------------------------------------------------------
Inbound dispatch.
--------------------------------------------------------------------- -/

/-- The authentication test of the wslink.hello branch: args non-empty,
args[0] truthy, a dict, carrying the key secret, whose value equals the
secret attribute of the server protocol object. -/
def helloAuthOk (args : List JVal) (secret : String) : Bool :=
  match args with
  | [] => false
  | a0 :: _ =>
    truthy a0 &&
      (match a0 with
       | .obj kvs =>
         match lookupKV kvs "secret" with
         | some v => jEqStr v secret
         | none => false
       | _ => false)

/-- WslinkHandler.handleSystemMessage: if the id segment before the first
colon is the word system, handle the message (hello authentication or the
unknown-system-method error) and report it handled; otherwise report it
not handled.  The authentication compares against the secret attribute of
the server protocol object; the handlerSecret attribute written by
setSecret is not consulted. -/
def handleSystemMessage (st : HState) (rpcid : String) (methodName : JVal)
    (args : List JVal) (client : String) :
    Except PyErr (Option (HState × List Event)) :=
  if pySplitHead rpcid == "system".data then
    if jEqStr methodName "wslink.hello" then
      if helloAuthOk args st.protocolSecret then
        (sendWrappedMessage st rpcid (.obj [("clientID", .str ("c" ++ client))]) ""
          (some client)).map (fun p => some p)
      else
        (sendWrappedError st rpcid AUTHENTICATION_ERROR "Authentication failed"
          .null (some client)).map (fun evs => some (st, evs))
    else
      (sendWrappedError st rpcid METHOD_NOT_FOUND "Unknown system method called"
        .null (some client)).map (fun evs => some (st, evs))
  else .ok none

/-- Function-map lookup by method name (keys are the registered URIs). -/
def lookupFn (fm : List (String × RpcFun)) (m : String) : Option RpcFun :=
  match fm with
  | [] => none
  | (k, f) :: rest => if k == m then some f else lookupFn rest m

/-- The data dict of an EXCEPTION_ERROR reply. -/
def excData (methodName : JVal) (reprS : String) (trace : String) : JVal :=
  .obj [("method", methodName), ("exception", .str reprS), ("trace", .str trace)]

/-- The error reply for a method name that is not in the function map. -/
def unregisteredReply (st : HState) (rpcid : String) (methodName : JVal)
    (client : String) : PyOutcome :=
  match sendWrappedError st rpcid METHOD_NOT_FOUND "Unregistered method called"
      methodName (some client) with
  | .ok evs => .ok st evs
  | .error e => .exn e st []

/-- The except-chain around an exception raised while invoking the
callable or sending its reply: the inner except sends an EXCEPTION_ERROR
reply; if that send itself raises, the outer except sends one more
EXCEPTION_ERROR reply; if that also raises, the exception propagates. -/
def exceptionReply (st : HState) (rpcid : String) (methodName : JVal)
    (reprS : String) (trace : String) (client : String) : PyOutcome :=
  match sendWrappedError st rpcid EXCEPTION_ERROR "Exception raised"
      (excData methodName reprS trace) (some client) with
  | .ok evs => .ok st evs
  | .error e2 =>
    match sendWrappedError st rpcid EXCEPTION_ERROR "Exception raised"
        (excData methodName (pyReprStr e2) (pyTraceStr e2)) (some client) with
    | .ok evs => .ok st evs
    | .error e3 => .exn e3 st []

/-- The positional arguments extracted from a decoded request: the args
member when it is present and a list, and the empty list otherwise. -/
def argsOf (kvs : List (String × JVal)) : List JVal :=
  match lookupKV kvs "args" with
  | some (.arr xs) => xs
  | _ => []

/-- The keyword arguments extracted from a decoded request: the kwargs
member when it is present and a dict, and the empty dict otherwise. -/
def kwargsOf (kvs : List (String × JVal)) : List (String × JVal) :=
  match lookupKV kvs "kwargs" with
  | some (.obj kv) => kv
  | _ => []

/-- The tail of WslinkHandler.onMessage for a message that carries an id:
try the system-message path; otherwise look the method up in the function
map (a TypeError if the method name is unhashable); on a miss send the
unregistered-method error; on a hit substitute attachment placeholders in
args and kwargs, invoke the callable (with the protocol object prepended
as first positional argument), and reply with the result, falling back to
the exception chain. -/
def dispatch (st : HState) (rpcid : String) (mv : JVal) (args : List JVal)
    (kwargs : List (String × JVal)) (client : String) : PyOutcome :=
  match handleSystemMessage st rpcid mv args client with
  | .error e => .exn e st []
  | .ok (some p) => .ok p.1 p.2
  | .ok none =>
    if !hashableJ mv then .exn .typeError st []
    else
      match mv with
      | .str mName =>
        match lookupFn st.functionMap mName with
        | none => unregisteredReply st rpcid mv client
        | some f =>
          let p := findAttL args st.attachmentsReceived
          let q := findAttO kwargs p.2
          let st1 := { st with attachmentsReceived := q.2 }
          match f p.1 q.1 with
          | .ok res =>
            match sendWrappedMessage st1 rpcid res mName (some client) with
            | .ok r => .ok r.1 r.2
            | .error e =>
              exceptionReply st1 rpcid mv (pyReprStr e) (pyTraceStr e) client
          | .raise reprS trace =>
            exceptionReply st1 rpcid mv reprS trace client
      | _ => unregisteredReply st rpcid mv client

/-- An inbound websocket frame: a text frame carrying the result of
json.loads on its payload (none when the payload is not well-formed JSON
and json.loads raises), or a binary frame carrying raw bytes. -/
inductive Frame where
  | text (parsed : Option JVal)
  | binary (payload : Bytes)

/-- WslinkHandler.onMessage.  Binary frames pop the head of the inbound
attachment queue and record the payload under that key, with every
exception of that block swallowed.  Text frames are decoded; a message
without an id extends the queue when it is a binary-attachment header and
is ignored otherwise; a message with an id is dispatched, after the
version, id and method fields are read (a KeyError when absent) and the
args and kwargs fields are extracted when they have the right type.  A
non-string id raises an AttributeError inside handleSystemMessage at
rpcid.split; a decoded payload that is not a dict raises a TypeError at
its first dict operation. -/
def onMessage (st : HState) (frame : Frame) (client : String) : PyOutcome :=
  match frame with
  | .binary payload =>
    match st.attachmentsRecvQueue with
    | [] => .ok st []
    | key :: rest =>
      if hashableJ key then
        .ok { st with attachmentsRecvQueue := rest,
                      attachmentsReceived := recvInsert st.attachmentsReceived key payload } []
      else
        .ok { st with attachmentsRecvQueue := rest } []
  | .text none => .exn .jsonDecodeError st []
  | .text (some rpc) =>
    match rpc with
    | .obj kvs =>
      match lookupKV kvs "id" with
      | none =>
        if jEqStr ((lookupKV kvs "method").getD .null) "wslink.binary.attachment" then
          match (lookupKV kvs "args").getD (.arr []) with
          | .arr ks => .ok { st with attachmentsRecvQueue := st.attachmentsRecvQueue ++ ks } []
          | _ => .ok st []
        else .ok st []
      | some idV =>
        match lookupKV kvs "wslink" with
        | none => .exn .keyError st []
        | some _ =>
          match lookupKV kvs "method" with
          | none => .exn .keyError st []
          | some mv =>
            match idV with
            | .str rpcid => dispatch st rpcid mv (argsOf kvs) (kwargsOf kvs) client
            | _ => .exn .attributeError st []
    | _ => .exn .typeError st []

/- ---------------------------------------------------------------------
Session read loop and server lifecycle.
--------------------------------------------------------------------- -/

/-- The read loop of handleWsRequest: process the inbound frames in
order; a propagating exception ends the loop at once. -/
def runFrames (st : HState) (frames : List Frame) (client : String) : PyOutcome :=
  match frames with
  | [] => .ok st []
  | f :: rest =>
    match onMessage st f client with
    | .ok st1 evs =>
      match runFrames st1 rest client with
      | .ok st2 evs2 => .ok st2 (evs ++ evs2)
      | .exn e st2 evs2 => .exn e st2 (evs ++ evs2)
    | .exn e st1 evs => .exn e st1 evs

/-- The connect prefix of handleWsRequest: insert the new connection into
the table, then cancel a pending shutdown task and clear its slot.
Returns the handler, the shutdown slot and the emitted events. -/
def wsConnectStep (h : HState) (slot : Option Nat) (client : String) :
    HState × Option Nat × List Event :=
  let h1 := { h with connections := h.connections ++ [client] }
  match slot with
  | some _ => (h1, none, [Event.cancelShutdown])
  | none => (h1, none, [])

/-- The disconnect suffix of handleWsRequest: remove the connection from
the table; if the table is now empty, re-arm the shutdown task with the
configured timeout. -/
def wsDisconnectStep (h : HState) (slot : Option Nat) (timeout : Nat) (client : String) :
    HState × Option Nat × List Event :=
  let h1 := { h with connections := h.connections.filter (fun c => !(c == client)) }
  if h1.connections.isEmpty then
    (h1, some timeout, [Event.scheduleShutdown timeout])
  else (h1, slot, [])

/-- The delayed stop task: disconnect the clients of every handler with
close code GOING_AWAY and reason Server shutdown, clean the runner up,
and resolve the running future awaited by the blocking start method. -/
def stopServerStep (handlers : List HState) : List Event :=
  ((handlers.map (fun h => h.connections.map
      (fun c => Event.closeConn c goingAway "Server shutdown"))).flatten) ++
    [Event.runnerCleanup, Event.resolveRunning]

/-- One whole handleWsRequest coroutine over a given inbound frame list:
connect, read loop, and, only when the loop completes without a
propagating exception, the disconnect suffix.  The boolean reports normal
completion. -/
def handleWsSession (h : HState) (slot : Option Nat) (timeout : Nat) (client : String)
    (frames : List Frame) : HState × Option Nat × List Event × Bool :=
  let c := wsConnectStep h slot client
  match runFrames c.1 frames client with
  | .ok h2 evs2 =>
    let d := wsDisconnectStep h2 c.2.1 timeout client
    (d.1, d.2.1, c.2.2 ++ evs2 ++ d.2.2, true)
  | .exn _ h2 evs2 =>
    (h2, c.2.1, c.2.2 ++ evs2, false)

/- ---------------------------------------------------------------------
Observation helpers used by the claim statements.
--------------------------------------------------------------------- -/

/-- Whether an event is a text send whose object carries an id field
equal to the given request id (an RPC reply to that id, on whatever
connection). -/
def replyFilter (rpcid : String) (e : Event) : Bool :=
  match e with
  | .sendText _ (.obj kvs) =>
    match lookupKV kvs "id" with
    | some (.str i) => i == rpcid
    | _ => false
  | _ => false

/-- Whether a wrapper object carries a result member. -/
def hasResult (w : JVal) : Bool :=
  match w with
  | .obj kvs => hasKeyO kvs "result"
  | _ => false

/-- Whether a wrapper object carries an error member. -/
def hasError (w : JVal) : Bool :=
  match w with
  | .obj kvs => hasKeyO kvs "error"
  | _ => false

/-- Whether an error wrapper carries a data member inside its error
object. -/
def errHasData (w : JVal) : Bool :=
  match w with
  | .obj kvs =>
    match lookupKV kvs "error" with
    | some (.obj ekvs) => hasKeyO ekvs "data"
    | _ => false
  | _ => false

/-- Replay the publish-manager refcount calls of an event prefix over a
map (the sends do not touch the map). -/
def replayRef (m : List PubEntry) : List Event → List PubEntry
  | [] => m
  | e :: rest =>
    replayRef
      (match e with
       | .registerAtt k => pmRegister m k
       | .unregisterAtt k => pmUnregister m k
       | .freeAtts ks => pmFree m ks
       | _ => m) rest

/-- Whether a key is stored in the publish attachment map. -/
def keyIn (m : List PubEntry) (k : String) : Bool :=
  (m.find? (fun e => e.key == k)).isSome

/-- The snapshot entries whose key occurs in the serialized message. -/
def matchedEntries (snap : List PubEntry) (encMsg : String) : List PubEntry :=
  snap.filter (fun e => strContains encMsg e.key)

/-- The events one matched key contributes to the scan: the refcount
increment, then for each receiver the single-key header and the binary
frame, then the refcount decrement. -/
def blockEvs (targets : List String) (e : PubEntry) : List Event :=
  Event.registerAtt e.key ::
    ((targets.map (fun c => [Event.sendText c (headerObj e.key),
                             Event.sendBytes c e.blob])).flatten ++
      [Event.unregisterAtt e.key])

/-- The whole event trace of the attachment scan, one block per matched
snapshot entry in snapshot order. -/
def scanTrace (snap : List PubEntry) (encMsg : String) (targets : List String) : List Event :=
  ((matchedEntries snap encMsg).map (blockEvs targets)).flatten

/-- The keys the scan finds, in snapshot order. -/
def foundKeys (snap : List PubEntry) (encMsg : String) : List String :=
  (matchedEntries snap encMsg).map PubEntry.key

/-- The events of a handled system message (none when the message was not
handled or the send raised). -/
def sysEvents (r : Except PyErr (Option (HState × List Event))) : Option (List Event) :=
  match r with
  | .ok (some p) => some p.2
  | _ => none

/-- Exactly one reply to the given request id appears among the events,
it goes to the given client, and it carries exactly one of the result and
error members. -/
def oneReplyTo (rpcid client : String) (evs : List Event) : Prop :=
  ∃ w, evs.filter (replyFilter rpcid) = [Event.sendText client w] ∧
    hasResult w ≠ hasError w

/- ---------------------------------------------------------------------
Lemmas.
--------------------------------------------------------------------- -/

mutual

theorem jsonLike_serializeJ : ∀ v : JVal, jsonLike v = true → (serializeJ v).isSome = true
  | .null, _ => rfl
  | .bool true, _ => rfl
  | .bool false, _ => rfl
  | .num _, _ => rfl
  | .str _, _ => rfl
  | .bytes _, h => by simp [jsonLike] at h
  | .arr xs, h => by
    have h2 := jsonLike_serializeL xs (by simpa [jsonLike] using h)
    obtain ⟨p, hp⟩ := Option.isSome_iff_exists.mp h2
    simp [serializeJ, hp]
  | .obj kvs, h => by
    have h2 := jsonLike_serializeO kvs (by simpa [jsonLike] using h)
    obtain ⟨p, hp⟩ := Option.isSome_iff_exists.mp h2
    simp [serializeJ, hp]

theorem jsonLike_serializeL : ∀ xs : List JVal, jsonLikeL xs = true → (serializeL xs).isSome = true
  | [], _ => rfl
  | x :: xs, h => by
    have hx : jsonLike x = true := by
      simp [jsonLikeL, Bool.and_eq_true] at h
      exact h.1
    have hxs : jsonLikeL xs = true := by
      simp [jsonLikeL, Bool.and_eq_true] at h
      exact h.2
    obtain ⟨s, hs⟩ := Option.isSome_iff_exists.mp (jsonLike_serializeJ x hx)
    obtain ⟨r, hr⟩ := Option.isSome_iff_exists.mp (jsonLike_serializeL xs hxs)
    simp [serializeL, hs, hr]

theorem jsonLike_serializeO : ∀ kvs : List (String × JVal), jsonLikeO kvs = true →
    (serializeO kvs).isSome = true
  | [], _ => rfl
  | (k, v) :: xs, h => by
    have hv : jsonLike v = true := by
      simp [jsonLikeO, Bool.and_eq_true] at h
      exact h.1
    have hxs : jsonLikeO xs = true := by
      simp [jsonLikeO, Bool.and_eq_true] at h
      exact h.2
    obtain ⟨s, hs⟩ := Option.isSome_iff_exists.mp (jsonLike_serializeJ v hv)
    obtain ⟨r, hr⟩ := Option.isSome_iff_exists.mp (jsonLike_serializeO xs hxs)
    simp [serializeO, hs, hr]

end

theorem lookupKV_jsonLike (kvs : List (String × JVal)) (k : String) (v : JVal)
    (hall : jsonLikeO kvs = true) (hl : lookupKV kvs k = some v) : jsonLike v = true := by
  induction kvs with
  | nil => simp [lookupKV] at hl
  | cons p rest ih =>
    obtain ⟨k0, v0⟩ := p
    simp [jsonLikeO, Bool.and_eq_true] at hall
    simp only [lookupKV] at hl
    by_cases hk : k0 = k
    · simp [hk] at hl
      exact hl ▸ hall.1
    · simp [hk] at hl
      exact ih hall.2 hl

theorem targetsOf_single (conns : List String) (c : String)
    (hc : conns.contains c = true) (hne : (c == "") = false) :
    targetsOf conns (some c) = .ok [c] := by
  simp only [targetsOf, hne, hc]
  simp

theorem errorWrapper_serializable (rpcid : String) (code : Int) (msg : String) (data : JVal)
    (hser : truthy data = true → (serializeJ data).isSome = true) :
    (serializeJ (errorWrapper rpcid code msg data)).isSome = true := by
  cases htd : truthy data with
  | false => simp [errorWrapper, serializeJ, serializeO, htd]
  | true =>
    obtain ⟨s, hs⟩ := Option.isSome_iff_exists.mp (hser htd)
    simp [errorWrapper, serializeJ, serializeO, htd, hs]

theorem sendErr_ok (st : HState) (rpcid : String) (code : Int) (msg : String) (data : JVal)
    (client : String) (hc : st.connections.contains client = true)
    (hne : (client == "") = false)
    (hser : truthy data = true → (serializeJ data).isSome = true) :
    sendWrappedError st rpcid code msg data (some client) =
      .ok [Event.sendText client (errorWrapper rpcid code msg data)] := by
  obtain ⟨s, hs⟩ := Option.isSome_iff_exists.mp
    (errorWrapper_serializable rpcid code msg data hser)
  simp [sendWrappedError, hs, targetsOf_single st.connections client hc hne]

theorem hasResult_resultWrapper (r : String) (c : JVal) :
    hasResult (resultWrapper r c) = true := rfl

theorem hasError_resultWrapper (r : String) (c : JVal) :
    hasError (resultWrapper r c) = false := rfl

theorem hasResult_errorWrapper (r : String) (code : Int) (msg : String) (d : JVal) :
    hasResult (errorWrapper r code msg d) = false := rfl

theorem hasError_errorWrapper (r : String) (code : Int) (msg : String) (d : JVal) :
    hasError (errorWrapper r code msg d) = true := rfl

theorem errHasData_errorWrapper (r : String) (code : Int) (msg : String) (d : JVal) :
    errHasData (errorWrapper r code msg d) = truthy d := by
  cases htd : truthy d <;>
    simp [errHasData, errorWrapper, lookupKV, hasKeyO, htd]

theorem replyFilter_resultWrapper (r c : String) (content : JVal) :
    replyFilter r (Event.sendText c (resultWrapper r content)) = true := by
  simp [replyFilter, resultWrapper, lookupKV]

theorem replyFilter_errorWrapper (r c : String) (code : Int) (msg : String) (d : JVal) :
    replyFilter r (Event.sendText c (errorWrapper r code msg d)) = true := by
  simp [replyFilter, errorWrapper, lookupKV]

theorem replyFilter_headerObj (r c k : String) :
    replyFilter r (Event.sendText c (headerObj k)) = false := rfl

theorem replyFilter_freeAtts (r : String) (ks : List String) :
    replyFilter r (Event.freeAtts ks) = false := rfl

theorem replyFilter_sendBytes (r c : String) (b : Bytes) :
    replyFilter r (Event.sendBytes c b) = false := rfl

theorem pairEvs_filter_nil (r : String) (targets : List String) (k : String) (b : Bytes) :
    ((targets.map (fun c => [Event.sendText c (headerObj k),
        Event.sendBytes c b])).flatten).filter (replyFilter r) = [] := by
  induction targets with
  | nil => rfl
  | cons c cs ih =>
    simp only [List.map_cons, List.flatten_cons, List.filter_append, ih,
      List.filter_cons, replyFilter_headerObj]
    simp [replyFilter]

theorem scanLoop_filter_nil (r : String) (snap : List PubEntry) :
    ∀ (enc : String) (targets : List String) (m : List PubEntry) (found : List String),
    ((scanLoop snap enc targets m found).2.2).filter (replyFilter r) = [] := by
  induction snap with
  | nil => intro enc targets m found; rfl
  | cons e rest ih =>
    intro enc targets m found
    by_cases h : strContains enc e.key = true
    · simp only [scanLoop, h, if_true, List.filter_cons, List.filter_append]
      rw [pairEvs_filter_nil, ih]
      simp [replyFilter]
    · simp only [scanLoop]
      rw [if_neg (by simp [h])]
      exact ih enc targets m found

theorem sendMsg_replies (st : HState) (rpcid : String) (content : JVal) (method client : String)
    (hc : st.connections.contains client = true) (hne : (client == "") = false) :
    ∃ stOut evs w, sendWrappedMessage st rpcid content method (some client) = .ok (stOut, evs) ∧
      evs.filter (replyFilter rpcid) = [Event.sendText client w] ∧
      (w = resultWrapper rpcid content ∨
       w = errorWrapper rpcid RESULT_SERIALIZE_ERROR "Method result cannot be serialized"
             (.str method)) := by
  have ht := targetsOf_single st.connections client hc hne
  cases hser : serializeJ (resultWrapper rpcid content) with
  | none =>
    have he := sendErr_ok st rpcid RESULT_SERIALIZE_ERROR "Method result cannot be serialized"
      (.str method) client hc hne (fun _ => rfl)
    refine ⟨st,
      [Event.sendText client
        (errorWrapper rpcid RESULT_SERIALIZE_ERROR "Method result cannot be serialized"
          (.str method))],
      errorWrapper rpcid RESULT_SERIALIZE_ERROR "Method result cannot be serialized"
        (.str method),
      by simp [sendWrappedMessage, hser, he, Except.map], ?_, Or.inr rfl⟩
    simp [List.filter_cons, replyFilter_errorWrapper]
  | some enc =>
    cases hpm : st.pubMap.isEmpty with
    | true =>
      refine ⟨st, [Event.sendText client (resultWrapper rpcid content)],
        resultWrapper rpcid content,
        by simp [sendWrappedMessage, hser, ht, hpm], ?_, Or.inl rfl⟩
      simp [List.filter_cons, replyFilter_resultWrapper]
    | false =>
      rcases hsc : scanLoop st.pubMap enc [client] st.pubMap [] with ⟨m1, found, sevs⟩
      refine ⟨{ st with pubMap := pmFree m1 found },
        sevs ++ (Event.freeAtts found ::
          [Event.sendText client (resultWrapper rpcid content)]),
        resultWrapper rpcid content,
        by simp [sendWrappedMessage, hser, ht, hpm, hsc], ?_, Or.inl rfl⟩
      have h0 : sevs.filter (replyFilter rpcid) = [] := by
        have h1 := scanLoop_filter_nil rpcid st.pubMap enc [client] st.pubMap []
        rw [hsc] at h1
        exact h1
      simp [List.filter_append, h0, List.filter_cons, replyFilter_freeAtts,
        replyFilter_resultWrapper]

theorem excData_serializable (mv : JVal) (r t : String) (h : (serializeJ mv).isSome = true) :
    (serializeJ (excData mv r t)).isSome = true := by
  obtain ⟨s, hs⟩ := Option.isSome_iff_exists.mp h
  simp [excData, serializeJ, serializeO, hs]

theorem exceptionReply_ok (st : HState) (rpcid : String) (mv : JVal) (r t client : String)
    (hc : st.connections.contains client = true) (hne : (client == "") = false)
    (hmv : (serializeJ mv).isSome = true) :
    exceptionReply st rpcid mv r t client =
      .ok st [Event.sendText client
        (errorWrapper rpcid EXCEPTION_ERROR "Exception raised" (excData mv r t))] := by
  have he := sendErr_ok st rpcid EXCEPTION_ERROR "Exception raised" (excData mv r t) client
    hc hne (fun _ => excData_serializable mv r t hmv)
  simp [exceptionReply, he]

theorem unregisteredReply_ok (st : HState) (rpcid : String) (mv : JVal) (client : String)
    (hc : st.connections.contains client = true) (hne : (client == "") = false)
    (hser : truthy mv = true → (serializeJ mv).isSome = true) :
    unregisteredReply st rpcid mv client =
      .ok st [Event.sendText client
        (errorWrapper rpcid METHOD_NOT_FOUND "Unregistered method called" mv)] := by
  have he := sendErr_ok st rpcid METHOD_NOT_FOUND "Unregistered method called" mv client
    hc hne hser
  simp [unregisteredReply, he]

theorem onMessage_req (st : HState) (kvs : List (String × JVal)) (client rpcid : String)
    (wv mv : JVal)
    (hid : lookupKV kvs "id" = some (.str rpcid))
    (hws : lookupKV kvs "wslink" = some wv)
    (hmv : lookupKV kvs "method" = some mv) :
    onMessage st (.text (some (.obj kvs))) client =
      dispatch st rpcid mv (argsOf kvs) (kwargsOf kvs) client := by
  simp [onMessage, hid, hws, hmv]

theorem hsm_not_system (st : HState) (rpcid : String) (mv : JVal) (args : List JVal)
    (client : String) (h : ¬ pySplitHead rpcid = "system".data) :
    handleSystemMessage st rpcid mv args client = .ok none := by
  simp [handleSystemMessage, beq_iff_eq, h]

theorem hsm_system_reply (st : HState) (rpcid : String) (mv : JVal) (args : List JVal)
    (client : String) (h : pySplitHead rpcid = "system".data)
    (hc : st.connections.contains client = true) (hne : (client == "") = false) :
    ∃ st1 evs, handleSystemMessage st rpcid mv args client = .ok (some (st1, evs)) ∧
      oneReplyTo rpcid client evs := by
  simp only [handleSystemMessage, beq_iff_eq, h, if_true]
  by_cases hm : jEqStr mv "wslink.hello" = true
  · simp only [hm, if_true]
    by_cases ha : helloAuthOk args st.protocolSecret = true
    · simp only [ha, if_true]
      obtain ⟨stOut, evs, w, heq, hfil, hw⟩ := sendMsg_replies st rpcid
        (.obj [("clientID", .str ("c" ++ client))]) "" client hc hne
      refine ⟨stOut, evs, by simp [heq, Except.map], w, hfil, ?_⟩
      rcases hw with h1 | h1 <;> subst h1 <;> simp [hasResult_resultWrapper,
        hasError_resultWrapper, hasResult_errorWrapper, hasError_errorWrapper]
    · have ha2 : helloAuthOk args st.protocolSecret = false := by
        revert ha
        cases helloAuthOk args st.protocolSecret <;> simp
      have he := sendErr_ok st rpcid AUTHENTICATION_ERROR "Authentication failed" .null
        client hc hne (fun hh => by simp [truthy] at hh)
      refine ⟨st, [Event.sendText client
        (errorWrapper rpcid AUTHENTICATION_ERROR "Authentication failed" .null)],
        by simp [ha2, he, Except.map], ?_⟩
      exact ⟨errorWrapper rpcid AUTHENTICATION_ERROR "Authentication failed" .null,
        by simp [List.filter_cons, replyFilter_errorWrapper],
        by simp [hasResult_errorWrapper, hasError_errorWrapper]⟩
  · have hm2 : jEqStr mv "wslink.hello" = false := by
      revert hm
      cases jEqStr mv "wslink.hello" <;> simp
    have he := sendErr_ok st rpcid METHOD_NOT_FOUND "Unknown system method called" .null
      client hc hne (fun hh => by simp [truthy] at hh)
    refine ⟨st, [Event.sendText client
      (errorWrapper rpcid METHOD_NOT_FOUND "Unknown system method called" .null)],
      by simp [hm2, he, Except.map], ?_⟩
    exact ⟨errorWrapper rpcid METHOD_NOT_FOUND "Unknown system method called" .null,
      by simp [List.filter_cons, replyFilter_errorWrapper],
      by simp [hasResult_errorWrapper, hasError_errorWrapper]⟩

theorem dispatch_one_reply (st : HState) (rpcid : String) (mv : JVal) (args : List JVal)
    (kwargs : List (String × JVal)) (client : String)
    (hc : st.connections.contains client = true) (hne : (client == "") = false)
    (hhash : hashableJ mv = true) (hjson : jsonLike mv = true) :
    ∃ st1 evs, dispatch st rpcid mv args kwargs client = .ok st1 evs ∧
      oneReplyTo rpcid client evs := by
  by_cases hs : pySplitHead rpcid = "system".data
  · obtain ⟨st1, evs, heq, hone⟩ := hsm_system_reply st rpcid mv args client hs hc hne
    exact ⟨st1, evs, by simp [dispatch, heq], hone⟩
  · have hns := hsm_not_system st rpcid mv args client hs
    have herrw : ∀ d : JVal, oneReplyTo rpcid client
        [Event.sendText client (errorWrapper rpcid METHOD_NOT_FOUND
          "Unregistered method called" d)] := by
      intro d
      exact ⟨errorWrapper rpcid METHOD_NOT_FOUND "Unregistered method called" d,
        by simp [List.filter_cons, replyFilter_errorWrapper],
        by simp [hasResult_errorWrapper, hasError_errorWrapper]⟩
    cases mv with
    | arr xs => simp [hashableJ] at hhash
    | obj kvs => simp [hashableJ] at hhash
    | bytes bs => simp [jsonLike] at hjson
    | null =>
      have hu := unregisteredReply_ok st rpcid .null client hc hne (fun _ => rfl)
      exact ⟨st, [Event.sendText client (errorWrapper rpcid METHOD_NOT_FOUND
        "Unregistered method called" .null)],
        by simp [dispatch, hns, hashableJ, hu], herrw .null⟩
    | bool b =>
      have hu := unregisteredReply_ok st rpcid (.bool b) client hc hne
        (fun _ => by cases b <;> rfl)
      exact ⟨st, [Event.sendText client (errorWrapper rpcid METHOD_NOT_FOUND
        "Unregistered method called" (.bool b))],
        by simp [dispatch, hns, hashableJ, hu], herrw (.bool b)⟩
    | num n =>
      have hu := unregisteredReply_ok st rpcid (.num n) client hc hne (fun _ => rfl)
      exact ⟨st, [Event.sendText client (errorWrapper rpcid METHOD_NOT_FOUND
        "Unregistered method called" (.num n))],
        by simp [dispatch, hns, hashableJ, hu], herrw (.num n)⟩
    | str mName =>
      cases hlf : lookupFn st.functionMap mName with
      | none =>
        have hu := unregisteredReply_ok st rpcid (.str mName) client hc hne (fun _ => rfl)
        exact ⟨st, [Event.sendText client (errorWrapper rpcid METHOD_NOT_FOUND
          "Unregistered method called" (.str mName))],
          by simp [dispatch, hns, hashableJ, hlf, hu], herrw (.str mName)⟩
      | some f =>
        cases hres : f (findAttL args st.attachmentsReceived).1
            (findAttO kwargs (findAttL args st.attachmentsReceived).2).1 with
        | ok res =>
          obtain ⟨stOut, evs, w, heq, hfil, hw⟩ := sendMsg_replies
            { st with attachmentsReceived :=
                (findAttO kwargs (findAttL args st.attachmentsReceived).2).2 }
            rpcid res mName client hc hne
          refine ⟨stOut, evs, by simp [dispatch, hns, hashableJ, hlf, hres, heq], w, hfil, ?_⟩
          rcases hw with h1 | h1 <;> subst h1 <;> simp [hasResult_resultWrapper,
            hasError_resultWrapper, hasResult_errorWrapper, hasError_errorWrapper]
        | raise r t =>
          have hex := exceptionReply_ok
            { st with attachmentsReceived :=
                (findAttO kwargs (findAttL args st.attachmentsReceived).2).2 }
            rpcid (.str mName) r t client hc hne rfl
          refine ⟨{ st with attachmentsReceived :=
              (findAttO kwargs (findAttL args st.attachmentsReceived).2).2 },
            [Event.sendText client (errorWrapper rpcid EXCEPTION_ERROR "Exception raised"
              (excData (.str mName) r t))],
            by simp [dispatch, hns, hashableJ, hlf, hres, hex], ?_⟩
          exact ⟨errorWrapper rpcid EXCEPTION_ERROR "Exception raised"
              (excData (.str mName) r t),
            by simp [List.filter_cons, replyFilter_errorWrapper],
            by simp [hasResult_errorWrapper, hasError_errorWrapper]⟩

theorem sendMsg_ok_of_ser (st : HState) (rpcid : String) (content : JVal)
    (method client : String)
    (hc : st.connections.contains client = true) (hne : (client == "") = false)
    (enc : String) (hser : serializeJ (resultWrapper rpcid content) = some enc) :
    ∃ stOut evs, sendWrappedMessage st rpcid content method (some client) = .ok (stOut, evs) ∧
      evs.filter (replyFilter rpcid) =
        [Event.sendText client (resultWrapper rpcid content)] := by
  have ht := targetsOf_single st.connections client hc hne
  cases hpm : st.pubMap.isEmpty with
  | true =>
    exact ⟨st, [Event.sendText client (resultWrapper rpcid content)],
      by simp [sendWrappedMessage, hser, ht, hpm],
      by simp [List.filter_cons, replyFilter_resultWrapper]⟩
  | false =>
    rcases hsc : scanLoop st.pubMap enc [client] st.pubMap [] with ⟨m1, found, sevs⟩
    refine ⟨{ st with pubMap := pmFree m1 found },
      sevs ++ (Event.freeAtts found ::
        [Event.sendText client (resultWrapper rpcid content)]),
      by simp [sendWrappedMessage, hser, ht, hpm, hsc], ?_⟩
    have h0 : sevs.filter (replyFilter rpcid) = [] := by
      have h1 := scanLoop_filter_nil rpcid st.pubMap enc [client] st.pubMap []
      rw [hsc] at h1
      exact h1
    simp [List.filter_append, h0, List.filter_cons, replyFilter_freeAtts,
      replyFilter_resultWrapper]

theorem hello_result_serializable (rpcid s : String) :
    (serializeJ (resultWrapper rpcid (.obj [("clientID", .str s)]))).isSome = true :=
  jsonLike_serializeJ _ rfl

theorem hsm_hello_ok (st : HState) (rpcid client : String) (args : List JVal)
    (hsys : pySplitHead rpcid = "system".data)
    (hauth : helloAuthOk args st.protocolSecret = true)
    (hc : st.connections.contains client = true) (hne : (client == "") = false) :
    ∃ st1 evs, handleSystemMessage st rpcid (.str "wslink.hello") args client =
      .ok (some (st1, evs)) ∧
      evs.filter (replyFilter rpcid) =
        [Event.sendText client (resultWrapper rpcid
          (.obj [("clientID", .str ("c" ++ client))]))] := by
  obtain ⟨enc, henc⟩ := Option.isSome_iff_exists.mp
    (hello_result_serializable rpcid ("c" ++ client))
  obtain ⟨stOut, evs, heq, hfil⟩ := sendMsg_ok_of_ser st rpcid
    (.obj [("clientID", .str ("c" ++ client))]) "" client hc hne enc henc
  exact ⟨stOut, evs,
    by simp [handleSystemMessage, beq_iff_eq, hsys, jEqStr, hauth, heq, Except.map], hfil⟩

theorem hsm_hello_fail (st : HState) (rpcid client : String) (mv : JVal) (args : List JVal)
    (hsys : pySplitHead rpcid = "system".data)
    (hm : jEqStr mv "wslink.hello" = true)
    (hauth : helloAuthOk args st.protocolSecret = false)
    (hc : st.connections.contains client = true) (hne : (client == "") = false) :
    handleSystemMessage st rpcid mv args client =
      .ok (some (st, [Event.sendText client
        (errorWrapper rpcid AUTHENTICATION_ERROR "Authentication failed" .null)])) := by
  have he := sendErr_ok st rpcid AUTHENTICATION_ERROR "Authentication failed" .null client
    hc hne (fun hh => by simp [truthy] at hh)
  simp [handleSystemMessage, beq_iff_eq, hsys, hm, hauth, he, Except.map]

theorem hsm_unknown (st : HState) (rpcid client : String) (mv : JVal) (args : List JVal)
    (hsys : pySplitHead rpcid = "system".data)
    (hm : jEqStr mv "wslink.hello" = false)
    (hc : st.connections.contains client = true) (hne : (client == "") = false) :
    handleSystemMessage st rpcid mv args client =
      .ok (some (st, [Event.sendText client
        (errorWrapper rpcid METHOD_NOT_FOUND "Unknown system method called" .null)])) := by
  have he := sendErr_ok st rpcid METHOD_NOT_FOUND "Unknown system method called" .null client
    hc hne (fun hh => by simp [truthy] at hh)
  simp [handleSystemMessage, beq_iff_eq, hsys, hm, he, Except.map]

theorem mapSome_ne_none (r : Except PyErr (HState × List Event)) :
    r.map (fun p => some p) ≠ .ok none := by
  cases r <;> simp [Except.map]

theorem mapSome2_ne_none (st1 : HState) (r : Except PyErr (List Event)) :
    r.map (fun evs => some (st1, evs)) ≠ .ok none := by
  cases r <;> simp [Except.map]

theorem takeWhile_colon_iff : ∀ (pre : List Char), (∀ c ∈ pre, ¬ c = ':') →
    ∀ cs : List Char, (cs.takeWhile (fun c => !(c == ':')) = pre ↔
      (cs = pre ∨ listStarts (pre ++ [':']) cs = true)) := by
  intro pre
  induction pre with
  | nil =>
    intro _ cs
    cases cs with
    | nil => simp [listStarts]
    | cons c cs2 =>
      by_cases hc : c = ':'
      · subst hc
        simp [List.takeWhile_cons, listStarts]
      · simp [List.takeWhile_cons, hc, listStarts, Ne.symm hc]
  | cons a pre2 ih =>
    intro hp cs
    have ha : ¬ a = ':' := hp a (List.mem_cons_self a pre2)
    have hp2 : ∀ c ∈ pre2, ¬ c = ':' := fun c hc => hp c (List.mem_cons_of_mem a hc)
    cases cs with
    | nil => simp [List.takeWhile, listStarts]
    | cons c cs2 =>
      by_cases hc : c = ':'
      · subst hc
        simp only [List.takeWhile_cons, listStarts, Ne.symm ha]
        simp [listStarts, Ne.symm ha]
        exact fun h1 => absurd h1 ha
      · have hcb : (!(c == ':')) = true := by simp [hc]
        rw [List.takeWhile_cons, if_pos hcb]
        constructor
        · intro h
          rw [List.cons.injEq] at h
          obtain ⟨h1, h2⟩ := h
          rcases (ih hp2 cs2).mp h2 with h3 | h3
          · exact Or.inl (by rw [h1, h3])
          · refine Or.inr ?_
            rw [List.cons_append]
            rw [show listStarts (a :: (pre2 ++ [':'])) (c :: cs2) =
              (a == c && listStarts (pre2 ++ [':']) cs2) from rfl]
            simp [h1, h3]
        · intro h
          rcases h with h | h
          · rw [List.cons.injEq] at h
            obtain ⟨h1, h2⟩ := h
            rw [List.cons.injEq]
            exact ⟨h1, (ih hp2 cs2).mpr (Or.inl h2)⟩
          · rw [List.cons_append] at h
            rw [show listStarts (a :: (pre2 ++ [':'])) (c :: cs2) =
              (a == c && listStarts (pre2 ++ [':']) cs2) from rfl] at h
            simp only [Bool.and_eq_true, beq_iff_eq] at h
            obtain ⟨h1, h2⟩ := h
            rw [List.cons.injEq]
            exact ⟨h1.symm, (ih hp2 cs2).mpr (Or.inr h2)⟩

/-- Claim C1: for every inbound JSON request that carries an id (a decoded
object with wslink present, a string id, and a hashable method member,
arriving from a client present in the connection table), processing the
message completes without a propagating exception and the events contain
exactly one reply carrying that id; the reply goes to the originating
connection and carries exactly one of the result and error members. -/
theorem C1_exactly_one_reply (st : HState) (kvs : List (String × JVal))
    (client rpcid : String) (wv mv : JVal)
    (hjson : jsonLikeO kvs = true)
    (hid : lookupKV kvs "id" = some (.str rpcid))
    (hws : lookupKV kvs "wslink" = some wv)
    (hmv : lookupKV kvs "method" = some mv)
    (hhash : hashableJ mv = true)
    (hc : st.connections.contains client = true)
    (hne : (client == "") = false) :
    ∃ st1 evs, onMessage st (.text (some (.obj kvs))) client = .ok st1 evs ∧
      oneReplyTo rpcid client evs := by
  rw [onMessage_req st kvs client rpcid wv mv hid hws hmv]
  exact dispatch_one_reply st rpcid mv (argsOf kvs) (kwargsOf kvs) client hc hne hhash
    (lookupKV_jsonLike kvs "method" mv hjson hmv)

/-- Witness for C1 at a concrete unregistered-method request. -/
theorem C1_exactly_one_reply_witness :
    (jsonLikeO [("wslink", JVal.str "1.0"), ("id", JVal.str "rpc:1"),
      ("method", JVal.str "foo")] = true) ∧
    (lookupKV [("wslink", JVal.str "1.0"), ("id", JVal.str "rpc:1"),
      ("method", JVal.str "foo")] "id" = some (.str "rpc:1")) ∧
    (hashableJ (JVal.str "foo") = true) ∧
    ((["c1"] : List String).contains "c1" = true) ∧
    (∃ st1 evs, onMessage ⟨[], [], [], ["c1"], "S", none, []⟩
        (.text (some (.obj [("wslink", JVal.str "1.0"), ("id", JVal.str "rpc:1"),
          ("method", JVal.str "foo")]))) "c1" = .ok st1 evs ∧
      oneReplyTo "rpc:1" "c1" evs) :=
  ⟨rfl, rfl, rfl, rfl,
    C1_exactly_one_reply ⟨[], [], [], ["c1"], "S", none, []⟩
      [("wslink", JVal.str "1.0"), ("id", JVal.str "rpc:1"), ("method", JVal.str "foo")]
      "c1" "rpc:1" (JVal.str "1.0") (JVal.str "foo") rfl rfl rfl rfl rfl rfl rfl⟩

/-- Claim C5 (amended): processing an inbound binary frame never raises and
emits nothing.  If the inbound attachment queue is empty the state is
unchanged.  If it is non-empty the head key is popped; when that key is a
hashable value the payload is recorded in the received attachments under
it, but when it is an unhashable value (a list or a dict, both reachable
from the wire through an attachment header), the dict assignment raises
internally, the exception is swallowed, and the key is consumed with
nothing recorded. -/
theorem C5_binary_frames (st : HState) (payload : Bytes) (client : String) :
    (st.attachmentsRecvQueue = [] → onMessage st (.binary payload) client = .ok st []) ∧
    (∀ k rest, st.attachmentsRecvQueue = k :: rest → hashableJ k = true →
      onMessage st (.binary payload) client =
        .ok { st with attachmentsRecvQueue := rest,
                      attachmentsReceived :=
                        recvInsert st.attachmentsReceived k payload } []) ∧
    (∀ k rest, st.attachmentsRecvQueue = k :: rest → hashableJ k = false →
      onMessage st (.binary payload) client =
        .ok { st with attachmentsRecvQueue := rest } []) ∧
    (∃ st1, onMessage st (.binary payload) client = .ok st1 []) := by
  refine ⟨?_, ?_, ?_, ?_⟩
  · intro h
    simp [onMessage, h]
  · intro k rest h hk
    simp [onMessage, h, hk]
  · intro k rest h hk
    simp [onMessage, h, hk]
  · cases hq : st.attachmentsRecvQueue with
    | nil => exact ⟨st, by simp [onMessage, hq]⟩
    | cons k rest =>
      cases hk : hashableJ k with
      | true =>
        exact ⟨{ st with attachmentsRecvQueue := rest,
                         attachmentsReceived :=
                           recvInsert st.attachmentsReceived k payload },
          by simp [onMessage, hq, hk]⟩
      | false =>
        exact ⟨{ st with attachmentsRecvQueue := rest }, by simp [onMessage, hq, hk]⟩

/-- Witness for C5: a binary frame consumed by a hashable pending key. -/
theorem C5_binary_frames_witness :
    ((⟨[], [], [JVal.str "wslink_bin0"], ["c1"], "S", none, []⟩ : HState).attachmentsRecvQueue =
      JVal.str "wslink_bin0" :: []) ∧
    (hashableJ (JVal.str "wslink_bin0") = true) ∧
    (onMessage ⟨[], [], [JVal.str "wslink_bin0"], ["c1"], "S", none, []⟩ (.binary [1, 2]) "c1" =
      .ok ⟨[], [(JVal.str "wslink_bin0", [1, 2])], [], ["c1"], "S", none, []⟩ []) :=
  ⟨rfl, rfl,
    (C5_binary_frames ⟨[], [], [JVal.str "wslink_bin0"], ["c1"], "S", none, []⟩ [1, 2]
      "c1").2.1 (JVal.str "wslink_bin0") [] rfl rfl⟩

/-- Claim C5 counterexample: with an unhashable pending key (a list delivered
through an attachment header), the binary frame pops the key but records
nothing: the received attachments stay empty, so the payload is not
recorded under the popped key as the claim states. -/
theorem C5_counterexample :
    onMessage ⟨[], [], [JVal.arr []], ["c1"], "S", none, []⟩ (.binary [1, 2]) "c1" =
      .ok ⟨[], [], [], ["c1"], "S", none, []⟩ [] ∧
    recvLookup ((⟨[], [], [], ["c1"], "S", none, []⟩ : HState).attachmentsReceived)
      (JVal.arr []) = none :=
  ⟨rfl, rfl⟩

/-- Claim C9: the idle-shutdown timer handling.  On connect the connection is
inserted and the pending shutdown task, if any, is cancelled and its slot
cleared, before any frame of the session is processed; on disconnect the
connection is removed and, exactly when the table became empty, the task
is re-armed with the configured timeout; when the task fires it closes
every open connection of every handler with close code GOING_AWAY and
reason Server shutdown, and resolves the running future (the last event)
so the blocking start returns. -/
theorem C9_shutdown_timer (h : HState) (slot : Option Nat) (t : Nat) (client : String)
    (handlers : List HState) (frames : List Frame) :
    ((wsConnectStep h slot client).1.connections = h.connections ++ [client]) ∧
    ((wsConnectStep h slot client).2.1 = none) ∧
    (slot = none → (wsConnectStep h slot client).2.2 = []) ∧
    (∀ d, slot = some d → (wsConnectStep h slot client).2.2 = [Event.cancelShutdown]) ∧
    (∃ tail, (handleWsSession h slot t client frames).2.2.1 =
      (wsConnectStep h slot client).2.2 ++ tail) ∧
    ((wsDisconnectStep h slot t client).1.connections =
      h.connections.filter (fun c => !(c == client))) ∧
    ((wsDisconnectStep h slot t client).1.connections = [] →
      (wsDisconnectStep h slot t client).2.1 = some t ∧
      (wsDisconnectStep h slot t client).2.2 = [Event.scheduleShutdown t]) ∧
    (¬ (wsDisconnectStep h slot t client).1.connections = [] →
      (wsDisconnectStep h slot t client).2.1 = slot ∧
      (wsDisconnectStep h slot t client).2.2 = []) ∧
    (∀ hh, hh ∈ handlers → ∀ c, c ∈ hh.connections →
      Event.closeConn c goingAway "Server shutdown" ∈ stopServerStep handlers) ∧
    ((stopServerStep handlers).getLast? = some Event.resolveRunning) := by
  refine ⟨?_, ?_, ?_, ?_, ?_, ?_, ?_, ?_, ?_, ?_⟩
  · cases slot <;> simp [wsConnectStep]
  · cases slot <;> simp [wsConnectStep]
  · intro h0
    subst h0
    simp [wsConnectStep]
  · intro d h0
    subst h0
    simp [wsConnectStep]
  · cases hr : runFrames (wsConnectStep h slot client).1 frames client with
    | ok h2 evs2 =>
      exact ⟨evs2 ++ (wsDisconnectStep h2 (wsConnectStep h slot client).2.1 t client).2.2,
        by simp [handleWsSession, hr]⟩
    | exn e h2 evs2 =>
      exact ⟨evs2, by simp [handleWsSession, hr]⟩
  · by_cases hfe : (h.connections.filter (fun c => !(c == client))).isEmpty = true <;>
      simp [wsDisconnectStep, hfe]
  · intro he
    by_cases hfe : (h.connections.filter (fun c => !(c == client))).isEmpty = true
    · simp [wsDisconnectStep, hfe]
    · exfalso
      have h1 : (wsDisconnectStep h slot t client).1.connections =
          h.connections.filter (fun c => !(c == client)) := by
        simp [wsDisconnectStep, hfe]
      rw [h1] at he
      rw [he] at hfe
      simp at hfe
  · intro he
    by_cases hfe : (h.connections.filter (fun c => !(c == client))).isEmpty = true
    · exfalso
      have h1 : (wsDisconnectStep h slot t client).1.connections =
          h.connections.filter (fun c => !(c == client)) := by
        simp [wsDisconnectStep, hfe]
      rw [h1] at he
      rw [List.isEmpty_iff] at hfe
      exact he hfe
    · simp [wsDisconnectStep, hfe]
  · intro hh hmem c hcmem
    simp only [stopServerStep, List.mem_append]
    left
    rw [List.mem_flatten]
    exact ⟨_, List.mem_map_of_mem _ hmem, List.mem_map_of_mem _ hcmem⟩
  · simp only [stopServerStep]
    rw [List.getLast?_append]
    rfl

/-- Witness for C9: a pending task is cancelled by a connect. -/
theorem C9_shutdown_timer_witness :
    ((some 5 : Option Nat) = some 5) ∧
    ((wsConnectStep ⟨[], [], [], [], "S", none, []⟩ (some 5) "c9").2.2 =
      [Event.cancelShutdown]) :=
  ⟨rfl, (C9_shutdown_timer ⟨[], [], [], [], "S", none, []⟩ (some 5) 30 "c9" [] []).2.2.2.1
    5 rfl⟩

/-- Claim C10: an error reply carries the data member exactly when the data
value supplied is truthy; with a falsy data value (none, empty string,
zero, empty list or dict) the data member is omitted, so in particular
the unregistered-method reply for an empty method name has no data
member. -/
theorem C10_error_data_truthiness (st : HState) (rpcid : String) (code : Int) (msg : String)
    (data : JVal) (client : String)
    (hc : st.connections.contains client = true) (hne : (client == "") = false)
    (hser : truthy data = true → (serializeJ data).isSome = true) :
    (sendWrappedError st rpcid code msg data (some client) =
      .ok [Event.sendText client (errorWrapper rpcid code msg data)]) ∧
    (errHasData (errorWrapper rpcid code msg data) = truthy data) ∧
    (errHasData (errorWrapper rpcid METHOD_NOT_FOUND "Unregistered method called"
      (.str "")) = false) :=
  ⟨sendErr_ok st rpcid code msg data client hc hne hser,
    errHasData_errorWrapper rpcid code msg data, rfl⟩

/-- Witness for C10 at concrete truthy and falsy data values. -/
theorem C10_error_data_truthiness_witness :
    ((["c1"] : List String).contains "c1" = true) ∧
    (errHasData (errorWrapper "r" METHOD_NOT_FOUND "Unregistered method called"
      (.str "foo")) = truthy (.str "foo")) ∧
    (sendWrappedError ⟨[], [], [], ["c1"], "S", none, []⟩ "r" METHOD_NOT_FOUND
      "Unregistered method called" (.str "") (some "c1") =
      .ok [Event.sendText "c1" (errorWrapper "r" METHOD_NOT_FOUND
        "Unregistered method called" (.str ""))]) :=
  ⟨rfl,
    (C10_error_data_truthiness ⟨[], [], [], ["c1"], "S", none, []⟩ "r" METHOD_NOT_FOUND
      "Unregistered method called" (.str "foo") "c1" rfl rfl (fun _ => rfl)).2.1,
    (C10_error_data_truthiness ⟨[], [], [], ["c1"], "S", none, []⟩ "r" METHOD_NOT_FOUND
      "Unregistered method called" (.str "") "c1" rfl rfl (fun _ => rfl)).1⟩

/-- Claim C4 (amended): a TEXT frame whose payload is not well-formed JSON
produces no reply and leaves the handler state unchanged, but json.loads
raises an uncaught exception that terminates the read loop: the frames
after it are never processed, the coroutine does not complete normally,
and the post-loop cleanup (connection-table removal and shutdown re-arm)
is skipped, so the connection entry stays in the table. -/
theorem C4_malformed_json (st : HState) (client : String) (fs : List Frame)
    (h : HState) (slot : Option Nat) (t : Nat) :
    (onMessage st (.text none) client = .exn .jsonDecodeError st []) ∧
    (runFrames st (.text none :: fs) client = .exn .jsonDecodeError st []) ∧
    ((handleWsSession h slot t client (.text none :: fs)).2.2.2 = false) ∧
    ((handleWsSession h slot t client (.text none :: fs)).1.connections =
      h.connections ++ [client]) ∧
    ((handleWsSession h slot t client (.text none :: fs)).2.2.1 =
      (wsConnectStep h slot client).2.2) := by
  refine ⟨rfl, rfl, ?_, ?_, ?_⟩
  · cases slot <;> rfl
  · cases slot <;> rfl
  · cases slot <;> simp [handleWsSession, wsConnectStep, runFrames, onMessage]

/-- Claim C4 counterexample: a malformed frame aborts the whole session run.
The following well-formed request is never processed (no reply event is
ever emitted), the connection entry c2 is not removed from the table, and
the shutdown timer is not re-armed, contradicting the claim that the
session continues to operate normally. -/
theorem C4_counterexample :
    handleWsSession ⟨[], [], [], ["c1"], "S", none, []⟩ (some 30) 30 "c2"
      [.text none, .text (some (.obj [("wslink", .str "1.0"), ("id", .str "rpc:1"),
        ("method", .str "foo")]))] =
    (⟨[], [], [], ["c1", "c2"], "S", none, []⟩, none, [Event.cancelShutdown], false) := rfl

/-- Claim C8 (amended): a request with an id is dispatched to the system path
exactly when the segment of its id before the first colon is the word
system; that condition holds exactly when the id is the bare word system
or begins with the seven characters system-colon (so the bare id system,
which does not begin with that prefix, is nevertheless dispatched as a
system message). -/
theorem C8_system_dispatch (st : HState) (rpcid : String) (mv : JVal) (args : List JVal)
    (client : String) :
    ((handleSystemMessage st rpcid mv args client = .ok none) ↔
      ¬ pySplitHead rpcid = "system".data) ∧
    (pySplitHead rpcid = "system".data ↔
      (rpcid = "system" ∨ listStarts "system:".data rpcid.data = true)) := by
  constructor
  · by_cases hs : pySplitHead rpcid = "system".data
    · simp only [handleSystemMessage, beq_iff_eq, hs, if_true]
      constructor
      · intro hcontra
        exfalso
        by_cases hm : jEqStr mv "wslink.hello" = true
        · rw [if_pos hm] at hcontra
          by_cases ha : helloAuthOk args st.protocolSecret = true
          · rw [if_pos ha] at hcontra
            exact mapSome_ne_none _ hcontra
          · rw [if_neg ha] at hcontra
            exact mapSome2_ne_none st _ hcontra
        · rw [if_neg hm] at hcontra
          exact mapSome2_ne_none st _ hcontra
      · intro hcontra
        exact absurd trivial hcontra
    · simp [hsm_not_system st rpcid mv args client hs, hs]
  · have hkey := takeWhile_colon_iff "system".data (by decide) rpcid.data
    have hps : pySplitHead rpcid = rpcid.data.takeWhile (fun c => !(c == ':')) := rfl
    rw [hps, hkey]
    constructor
    · rintro (h1 | h1)
      · exact Or.inl (String.ext h1)
      · refine Or.inr ?_
        have : "system".data ++ [':'] = "system:".data := by decide
        rw [← this]
        exact h1
    · rintro (h1 | h1)
      · exact Or.inl (by rw [h1])
      · refine Or.inr ?_
        have : "system".data ++ [':'] = "system:".data := by decide
        rw [this]
        exact h1

/-- Claim C8 counterexample: the bare id system, which does not begin with the
prefix system-colon, is nevertheless handled by the system-message path
(the unknown-system-method error is sent), because the code tests the
segment before the first colon rather than the prefix. -/
theorem C8_counterexample :
    handleSystemMessage ⟨[], [], [], ["c1"], "S", none, []⟩ "system" (.str "nope") [] "c1" =
      .ok (some (⟨[], [], [], ["c1"], "S", none, []⟩,
        [Event.sendText "c1" (errorWrapper "system" METHOD_NOT_FOUND
          "Unknown system method called" .null)])) ∧
    listStarts "system:".data "system".data = false :=
  ⟨rfl, by decide⟩

theorem jEqStr_true_iff (v : JVal) (s : String) : jEqStr v s = true ↔ v = .str s := by
  cases v <;> simp [jEqStr]

theorem sendMsg_setSecret (st : HState) (x rpcid : String) (content : JVal)
    (method : String) (cid : Option String) :
    sendWrappedMessage (setSecret st x) rpcid content method cid =
      (sendWrappedMessage st rpcid content method cid).map
        (fun p => (setSecret p.1 x, p.2)) := by
  cases hser : serializeJ (resultWrapper rpcid content) with
  | none =>
    have hrw : sendWrappedError (setSecret st x) rpcid RESULT_SERIALIZE_ERROR
        "Method result cannot be serialized" (.str method) cid =
        sendWrappedError st rpcid RESULT_SERIALIZE_ERROR
        "Method result cannot be serialized" (.str method) cid := rfl
    simp only [sendWrappedMessage, hser, hrw]
    cases he : sendWrappedError st rpcid RESULT_SERIALIZE_ERROR
        "Method result cannot be serialized" (.str method) cid with
    | ok evs => simp [Except.map]
    | error e => simp [Except.map]
  | some enc =>
    have htg : targetsOf (setSecret st x).connections cid =
        targetsOf st.connections cid := rfl
    simp only [sendWrappedMessage, hser, htg]
    cases ht : targetsOf st.connections cid with
    | error e => simp [Except.map]
    | ok targets =>
      have hpm : (setSecret st x).pubMap = st.pubMap := rfl
      simp only [hpm]
      cases hpe : st.pubMap.isEmpty with
      | true => simp [hpe, Except.map, setSecret]
      | false =>
        simp only [hpe, Bool.false_eq_true, if_false, Except.map]
        rfl

theorem hsm_setSecret (st : HState) (x rpcid : String) (mv : JVal) (args : List JVal)
    (client : String) :
    handleSystemMessage (setSecret st x) rpcid mv args client =
      (handleSystemMessage st rpcid mv args client).map
        (fun o => o.map (fun p => (setSecret p.1 x, p.2))) := by
  unfold handleSystemMessage
  have hps : (setSecret st x).protocolSecret = st.protocolSecret := rfl
  simp only [hps]
  by_cases h1 : (pySplitHead rpcid == "system".data) = true
  · rw [if_pos h1, if_pos h1]
    by_cases h2 : jEqStr mv "wslink.hello" = true
    · rw [if_pos h2, if_pos h2]
      by_cases h3 : helloAuthOk args st.protocolSecret = true
      · rw [if_pos h3, if_pos h3]
        rw [sendMsg_setSecret]
        cases sendWrappedMessage st rpcid (.obj [("clientID", .str ("c" ++ client))]) ""
            (some client) with
        | ok p => simp [Except.map]
        | error e => simp [Except.map]
      · rw [if_neg h3, if_neg h3]
        have hrw : sendWrappedError (setSecret st x) rpcid AUTHENTICATION_ERROR
            "Authentication failed" .null (some client) =
            sendWrappedError st rpcid AUTHENTICATION_ERROR
            "Authentication failed" .null (some client) := rfl
        rw [hrw]
        cases sendWrappedError st rpcid AUTHENTICATION_ERROR "Authentication failed" .null
            (some client) with
        | ok evs => simp [Except.map, setSecret]
        | error e => simp [Except.map]
    · rw [if_neg h2, if_neg h2]
      have hrw : sendWrappedError (setSecret st x) rpcid METHOD_NOT_FOUND
          "Unknown system method called" .null (some client) =
          sendWrappedError st rpcid METHOD_NOT_FOUND
          "Unknown system method called" .null (some client) := rfl
      rw [hrw]
      cases sendWrappedError st rpcid METHOD_NOT_FOUND "Unknown system method called" .null
          (some client) with
      | ok evs => simp [Except.map, setSecret]
      | error e => simp [Except.map]
  · rw [if_neg h1, if_neg h1]
    simp [Except.map]

/-- Claim C3 (amended): for a system request with method wslink.hello, the
reply is a success carrying clientID (the letter c prepended to the
client id) exactly when the first positional argument is a dict whose
secret entry equals the secret attribute of the SERVER PROTOCOL object;
in every other case (missing args, non-dict, missing key, mismatch) the
reply is an AUTHENTICATION_ERROR error with message Authentication
failed.  The value written by setSecret on the handler itself is never
consulted: calling setSecret changes none of the emitted events. -/
theorem C3_hello_auth (st : HState) (rpcid client : String) (args : List JVal)
    (hsys : pySplitHead rpcid = "system".data)
    (hc : st.connections.contains client = true) (hne : (client == "") = false) :
    (helloAuthOk args st.protocolSecret = false →
      handleSystemMessage st rpcid (.str "wslink.hello") args client =
        .ok (some (st, [Event.sendText client
          (errorWrapper rpcid AUTHENTICATION_ERROR "Authentication failed" .null)]))) ∧
    (helloAuthOk args st.protocolSecret = true →
      ∃ st1 evs, handleSystemMessage st rpcid (.str "wslink.hello") args client =
        .ok (some (st1, evs)) ∧
        evs.filter (replyFilter rpcid) =
          [Event.sendText client (resultWrapper rpcid
            (.obj [("clientID", .str ("c" ++ client))]))]) ∧
    (∀ secret, helloAuthOk args secret = true ↔
      ∃ kvs rest, args = JVal.obj kvs :: rest ∧
        lookupKV kvs "secret" = some (.str secret)) ∧
    (∀ x, sysEvents (handleSystemMessage (setSecret st x) rpcid
        (.str "wslink.hello") args client) =
      sysEvents (handleSystemMessage st rpcid (.str "wslink.hello") args client)) := by
  refine ⟨?_, ?_, ?_, ?_⟩
  · intro ha
    exact hsm_hello_fail st rpcid client (.str "wslink.hello") args hsys
      (by simp [jEqStr]) ha hc hne
  · intro ha
    exact hsm_hello_ok st rpcid client args hsys ha hc hne
  · intro secret
    constructor
    · intro h
      cases args with
      | nil => simp [helloAuthOk] at h
      | cons a0 rest =>
        cases a0 with
        | obj kvs =>
          simp only [helloAuthOk, Bool.and_eq_true] at h
          obtain ⟨htr, hmatch⟩ := h
          cases hlk : lookupKV kvs "secret" with
          | none => rw [hlk] at hmatch; simp at hmatch
          | some v =>
            rw [hlk] at hmatch
            have hv := (jEqStr_true_iff v secret).mp hmatch
            exact ⟨kvs, rest, rfl, by rw [hlk, hv]⟩
        | null => simp [helloAuthOk] at h
        | bool b => simp [helloAuthOk] at h
        | num n => simp [helloAuthOk] at h
        | str s => simp [helloAuthOk] at h
        | bytes bs => simp [helloAuthOk] at h
        | arr xs => simp [helloAuthOk] at h
    · rintro ⟨kvs, rest, harg, hlook⟩
      subst harg
      have hkne : kvs.isEmpty = false := by
        cases kvs with
        | nil => simp [lookupKV] at hlook
        | cons p r => rfl
      simp [helloAuthOk, truthy, hkne, hlook, jEqStr]
  · intro x
    rw [hsm_setSecret]
    cases handleSystemMessage st rpcid (.str "wslink.hello") args client with
    | error e => rfl
    | ok o => cases o <;> rfl

/-- Witness for C3 at a successful concrete hello exchange. -/
theorem C3_hello_auth_witness :
    (pySplitHead "system:0" = "system".data) ∧
    (helloAuthOk [.obj [("secret", .str "B")]]
      ((⟨[], [], [], ["c1"], "B", none, []⟩ : HState).protocolSecret) = true) ∧
    (∃ st1 evs, handleSystemMessage ⟨[], [], [], ["c1"], "B", none, []⟩ "system:0"
        (.str "wslink.hello") [.obj [("secret", .str "B")]] "c1" =
        .ok (some (st1, evs)) ∧
      evs.filter (replyFilter "system:0") =
        [Event.sendText "c1" (resultWrapper "system:0"
          (.obj [("clientID", .str "cc1")]))]) :=
  ⟨by decide, rfl,
    (C3_hello_auth ⟨[], [], [], ["c1"], "B", none, []⟩ "system:0" "c1"
      [.obj [("secret", .str "B")]] (by decide) rfl rfl).2.1 rfl⟩

/-- Claim C3 counterexample: the handler is configured through setSecret with
the secret A while its server protocol object carries the secret B.  A
hello request presenting A (the secret configured on the handler, as the
claim and its cited setSecret source understand it) is REJECTED, while a
hello presenting the protocol secret B succeeds: the code compares
against the protocol attribute, not against the value set by setSecret. -/
theorem C3_counterexample :
    onMessage (setSecret ⟨[], [], [], ["c1"], "B", none, []⟩ "A")
      (.text (some (.obj [("wslink", .str "1.0"), ("id", .str "system:0"),
        ("method", .str "wslink.hello"),
        ("args", .arr [.obj [("secret", .str "A")]])]))) "c1" =
    .ok (setSecret ⟨[], [], [], ["c1"], "B", none, []⟩ "A")
      [Event.sendText "c1" (errorWrapper "system:0" AUTHENTICATION_ERROR
        "Authentication failed" .null)] ∧
    onMessage ⟨[], [], [], ["c1"], "B", none, []⟩
      (.text (some (.obj [("wslink", .str "1.0"), ("id", .str "system:0"),
        ("method", .str "wslink.hello"),
        ("args", .arr [.obj [("secret", .str "B")]])]))) "c1" =
    .ok ⟨[], [], [], ["c1"], "B", none, []⟩
      [Event.sendText "c1" (resultWrapper "system:0"
        (.obj [("clientID", .str "cc1")]))] :=
  ⟨rfl, rfl⟩

/-- Claim C7 (amended): a request dispatched to the system path (id segment
before the first colon equal to system, which includes the bare id
system) whose method is not wslink.hello is answered with
METHOD_NOT_FOUND and message Unknown system method called and no data
member; a request not dispatched to the system path whose method is not
in the function map is answered with METHOD_NOT_FOUND and message
Unregistered method called, with the method name carried in the data
member exactly when the method name is non-empty (an empty method name
produces no data member). -/
theorem C7_unknown_method (st : HState) (kvs : List (String × JVal))
    (client rpcid : String) (wv mv : JVal)
    (hid : lookupKV kvs "id" = some (.str rpcid))
    (hws : lookupKV kvs "wslink" = some wv)
    (hmv : lookupKV kvs "method" = some mv)
    (hc : st.connections.contains client = true) (hne : (client == "") = false) :
    (pySplitHead rpcid = "system".data → jEqStr mv "wslink.hello" = false →
      onMessage st (.text (some (.obj kvs))) client =
        .ok st [Event.sendText client (errorWrapper rpcid METHOD_NOT_FOUND
          "Unknown system method called" .null)] ∧
      errHasData (errorWrapper rpcid METHOD_NOT_FOUND
        "Unknown system method called" .null) = false) ∧
    (∀ m, ¬ pySplitHead rpcid = "system".data → mv = .str m →
      lookupFn st.functionMap m = none →
      onMessage st (.text (some (.obj kvs))) client =
        .ok st [Event.sendText client (errorWrapper rpcid METHOD_NOT_FOUND
          "Unregistered method called" (.str m))] ∧
      errHasData (errorWrapper rpcid METHOD_NOT_FOUND
        "Unregistered method called" (.str m)) = (!(m == ""))) := by
  refine ⟨?_, ?_⟩
  · intro hsys hm
    refine ⟨?_, rfl⟩
    rw [onMessage_req st kvs client rpcid wv mv hid hws hmv]
    have hu := hsm_unknown st rpcid client mv (argsOf kvs) hsys hm hc hne
    simp [dispatch, hu]
  · intro m hns hmeq hlf
    subst hmeq
    refine ⟨?_, ?_⟩
    · rw [onMessage_req st kvs client rpcid wv (.str m) hid hws hmv]
      have hnn := hsm_not_system st rpcid (.str m) (argsOf kvs) client hns
      have hu := unregisteredReply_ok st rpcid (.str m) client hc hne (fun _ => rfl)
      simp [dispatch, hnn, hashableJ, hlf, hu]
    · rw [errHasData_errorWrapper]
      rfl

/-- Witness for C7 at a concrete unknown system method. -/
theorem C7_unknown_method_witness :
    (pySplitHead "system:1" = "system".data) ∧
    (jEqStr (.str "wslink.other") "wslink.hello" = false) ∧
    (onMessage ⟨[], [], [], ["c1"], "S", none, []⟩
      (.text (some (.obj [("wslink", .str "1.0"), ("id", .str "system:1"),
        ("method", .str "wslink.other")]))) "c1" =
      .ok ⟨[], [], [], ["c1"], "S", none, []⟩
        [Event.sendText "c1" (errorWrapper "system:1" METHOD_NOT_FOUND
          "Unknown system method called" .null)]) :=
  ⟨by decide, rfl,
    ((C7_unknown_method ⟨[], [], [], ["c1"], "S", none, []⟩
      [("wslink", .str "1.0"), ("id", .str "system:1"), ("method", .str "wslink.other")]
      "c1" "system:1" (.str "1.0") (.str "wslink.other")
      rfl rfl rfl rfl rfl).1 (by decide) rfl).1⟩

/-- Claim C7 counterexample: first, an unregistered request whose method name
is the empty string is answered without any data member, although the
claim requires the method name to be echoed in data; second, the request
with the bare id system (which is NOT system-prefixed in the sense of
the claim, as the final conjunct shows) and an unknown method is answered
with the system-path error Unknown system method called instead of the
claimed Unregistered method called. -/
theorem C7_counterexample :
    onMessage ⟨[], [], [], ["c1"], "S", none, []⟩
      (.text (some (.obj [("wslink", .str "1.0"), ("id", .str "rpc:1"),
        ("method", .str "")]))) "c1" =
      .ok ⟨[], [], [], ["c1"], "S", none, []⟩
        [Event.sendText "c1" (errorWrapper "rpc:1" METHOD_NOT_FOUND
          "Unregistered method called" (.str ""))] ∧
    errHasData (errorWrapper "rpc:1" METHOD_NOT_FOUND
      "Unregistered method called" (.str "")) = false ∧
    onMessage ⟨[], [], [], ["c1"], "S", none, []⟩
      (.text (some (.obj [("wslink", .str "1.0"), ("id", .str "system"),
        ("method", .str "nope")]))) "c1" =
      .ok ⟨[], [], [], ["c1"], "S", none, []⟩
        [Event.sendText "c1" (errorWrapper "system" METHOD_NOT_FOUND
          "Unknown system method called" .null)] ∧
    listStarts "system:".data "system".data = false :=
  ⟨rfl, rfl, rfl, by decide⟩

theorem sendMsg_recv_preserved (st : HState) (rpcid : String) (content : JVal)
    (method : String) (cid : Option String) (stOut : HState) (evs : List Event)
    (h : sendWrappedMessage st rpcid content method cid = .ok (stOut, evs)) :
    stOut.attachmentsReceived = st.attachmentsReceived := by
  simp only [sendWrappedMessage] at h
  cases hser : serializeJ (resultWrapper rpcid content) with
  | none =>
    rw [hser] at h
    cases he : sendWrappedError st rpcid RESULT_SERIALIZE_ERROR
        "Method result cannot be serialized" (.str method) cid with
    | ok evs2 =>
      rw [he] at h
      simp [Except.map] at h
      rw [← h.1]
    | error e =>
      rw [he] at h
      simp [Except.map] at h
  | some enc =>
    rw [hser] at h
    cases ht : targetsOf st.connections cid with
    | error e =>
      rw [ht] at h
      simp at h
    | ok targets =>
      rw [ht] at h
      by_cases hpe : st.pubMap.isEmpty = true
      · simp [hpe] at h
        rw [← h.1]
      · simp [hpe] at h
        rw [← h.1]

/-- Claim C6: the placeholder substitution of findAttachments.  A string leaf
matching the placeholder pattern and present as a key of the received
attachments is replaced by the stored raw bytes and its entry is deleted;
a matching string absent from the received attachments, a non-matching
string, and every non-container value are returned unchanged with the
dict untouched; lists and dicts are rewritten element by element in
order, threading the dict through.  Moreover, on a dispatch to a
registered method, the invocation receives the substituted args and
kwargs and the final state carries the drained received-attachments
dict. -/
theorem C6_attachment_substitution (m : List (JVal × Bytes)) (s : String) (b : Bytes)
    (bb : Bool) (n : Int) (bs : Bytes) (x : JVal) (xs : List JVal) (k2 : String)
    (kvs : List (String × JVal)) :
    (isPlaceholder s = true → recvLookup m (.str s) = some b →
      findAtt (.str s) m = (.bytes b, recvDel m (.str s))) ∧
    (isPlaceholder s = true → recvLookup m (.str s) = none →
      findAtt (.str s) m = (.str s, m)) ∧
    (isPlaceholder s = false → findAtt (.str s) m = (.str s, m)) ∧
    (findAtt .null m = (.null, m)) ∧
    (findAtt (.bool bb) m = (.bool bb, m)) ∧
    (findAtt (.num n) m = (.num n, m)) ∧
    (findAtt (.bytes bs) m = (.bytes bs, m)) ∧
    (findAtt (.arr xs) m = (.arr (findAttL xs m).1, (findAttL xs m).2)) ∧
    (findAtt (.obj kvs) m = (.obj (findAttO kvs m).1, (findAttO kvs m).2)) ∧
    (findAttL [] m = ([], m)) ∧
    (findAttL (x :: xs) m =
      ((findAtt x m).1 :: (findAttL xs (findAtt x m).2).1,
        (findAttL xs (findAtt x m).2).2)) ∧
    (findAttO [] m = ([], m)) ∧
    (findAttO ((k2, x) :: kvs) m =
      ((k2, (findAtt x m).1) :: (findAttO kvs (findAtt x m).2).1,
        (findAttO kvs (findAtt x m).2).2)) ∧
    (∀ (st : HState) (rpcid mName client : String) (f : RpcFun)
      (args : List JVal) (kwargs : List (String × JVal)) (res : JVal),
      ¬ pySplitHead rpcid = "system".data →
      lookupFn st.functionMap mName = some f →
      st.connections.contains client = true → (client == "") = false →
      f (findAttL args st.attachmentsReceived).1
        (findAttO kwargs (findAttL args st.attachmentsReceived).2).1 = .ok res →
      ∃ stOut evs w, dispatch st rpcid (.str mName) args kwargs client = .ok stOut evs ∧
        stOut.attachmentsReceived =
          (findAttO kwargs (findAttL args st.attachmentsReceived).2).2 ∧
        evs.filter (replyFilter rpcid) = [Event.sendText client w] ∧
        (w = resultWrapper rpcid res ∨
         w = errorWrapper rpcid RESULT_SERIALIZE_ERROR
           "Method result cannot be serialized" (.str mName))) := by
  refine ⟨?_, ?_, ?_, rfl, rfl, rfl, rfl, rfl, rfl, rfl, rfl, rfl, rfl, ?_⟩
  · intro h1 h2
    simp [findAtt, h1, h2]
  · intro h1 h2
    simp [findAtt, h1, h2]
  · intro h1
    simp [findAtt, h1]
  · intro st rpcid mName client f args kwargs res hns hlf hc hne hres
    have hnn := hsm_not_system st rpcid (.str mName) args client hns
    obtain ⟨stOut, evs, w, heq, hfil, hw⟩ := sendMsg_replies
      { st with attachmentsReceived :=
          (findAttO kwargs (findAttL args st.attachmentsReceived).2).2 }
      rpcid res mName client hc hne
    refine ⟨stOut, evs, w, by simp [dispatch, hnn, hashableJ, hlf, hres, heq], ?_, hfil, hw⟩
    have hpres := sendMsg_recv_preserved
      { st with attachmentsReceived :=
          (findAttO kwargs (findAttL args st.attachmentsReceived).2).2 }
      rpcid res mName (some client) stOut evs heq
    exact hpres

/-- Witness for C6: a concrete placeholder is substituted and drained. -/
theorem C6_attachment_substitution_witness :
    (isPlaceholder "wslink_bin0" = true) ∧
    (recvLookup [(JVal.str "wslink_bin0", [5])] (.str "wslink_bin0") = some [5]) ∧
    (findAtt (.str "wslink_bin0") [(JVal.str "wslink_bin0", [5])] =
      (.bytes [5], recvDel [(JVal.str "wslink_bin0", [5])] (.str "wslink_bin0"))) :=
  ⟨rfl, rfl,
    (C6_attachment_substitution [(JVal.str "wslink_bin0", [5])] "wslink_bin0" [5]
      false 0 [] .null [] "" []).1 rfl rfl⟩

theorem contains_false_of_not_mem (l : List String) (a : String) (h : ¬ a ∈ l) :
    l.contains a = false := by
  induction l with
  | nil => rfl
  | cons b bs ih =>
    have hab : ¬ a = b := fun hh => h (by simp [hh])
    have htl : ¬ a ∈ bs := fun hh => h (by simp [hh])
    have hab2 : (a == b) = false := by simp [hab]
    have h2 := ih htl
    simp only [List.contains_cons, hab2, h2, Bool.or_self]

theorem pmUnregister_pmRegister (m : List PubEntry) (k : String) :
    pmUnregister (pmRegister m k) k = m := by
  induction m with
  | nil => rfl
  | cons e rest ih =>
    simp only [pmRegister, List.map_cons, pmUnregister] at ih ⊢
    rw [ih]
    by_cases he : (e.key == k) = true
    · simp [he]
    · have he2 : (e.key == k) = false := by
        revert he
        cases e.key == k <;> simp
      simp [he2]

theorem refOf_pmRegister (m : List PubEntry) (k : String) (h : keyIn m k = true) :
    refOf (pmRegister m k) k = refOf m k + 1 := by
  induction m with
  | nil => simp [keyIn, List.find?] at h
  | cons e rest ih =>
    by_cases he : (e.key == k) = true
    · have heq : e.key = k := by simpa using he
      rw [show pmRegister (e :: rest) k =
          (⟨e.key, e.blob, e.refcount + 1⟩ : PubEntry) :: pmRegister rest k from by
        simp [pmRegister, heq]]
      rw [show refOf ((⟨e.key, e.blob, e.refcount + 1⟩ : PubEntry) ::
          pmRegister rest k) k = e.refcount + 1 from by
        simp [refOf, List.find?_cons, he]]
      rw [show refOf (e :: rest) k = e.refcount from by
        simp [refOf, List.find?_cons, he]]
    · have he2 : (e.key == k) = false := by
        revert he
        cases e.key == k <;> simp
      have hneq : ¬ e.key = k := by simpa using he2
      have h2 : keyIn rest k = true := by
        simp only [keyIn, List.find?_cons, he2] at h
        exact h
      rw [show pmRegister (e :: rest) k = e :: pmRegister rest k from by
        simp [pmRegister, hneq]]
      rw [show refOf (e :: pmRegister rest k) k = refOf (pmRegister rest k) k from by
        simp [refOf, List.find?_cons, he2]]
      rw [show refOf (e :: rest) k = refOf rest k from by
        simp [refOf, List.find?_cons, he2]]
      exact ih h2

theorem replayRef_append (a b : List Event) (m : List PubEntry) :
    replayRef m (a ++ b) = replayRef (replayRef m a) b := by
  induction a generalizing m with
  | nil => rfl
  | cons e rest ih => simp [replayRef, ih]

theorem replayRef_pairEvs (m : List PubEntry) (targets : List String) (hobj : JVal)
    (b : Bytes) :
    replayRef m ((targets.map (fun c => [Event.sendText c hobj,
      Event.sendBytes c b])).flatten) = m := by
  induction targets with
  | nil => rfl
  | cons c cs ih =>
    simp only [List.map_cons, List.flatten_cons, List.cons_append, List.nil_append]
    show replayRef m (Event.sendText c hobj :: Event.sendBytes c b ::
      (cs.map (fun c => [Event.sendText c hobj, Event.sendBytes c b])).flatten) = m
    show replayRef m ((cs.map (fun c => [Event.sendText c hobj,
      Event.sendBytes c b])).flatten) = m
    exact ih

theorem scanLoop_closed (enc : String) (targets : List String) :
    ∀ (snap m : List PubEntry) (found : List String),
    (snap.map PubEntry.key).Nodup →
    (∀ k ∈ found, ¬ k ∈ snap.map PubEntry.key) →
    scanLoop snap enc targets m found =
      (m, found ++ foundKeys snap enc, scanTrace snap enc targets) := by
  intro snap
  induction snap with
  | nil =>
    intro m found _ _
    simp [scanLoop, foundKeys, matchedEntries, scanTrace]
  | cons e rest ih =>
    intro m found hnd hdisj
    have hnd0 := hnd
    rw [List.map_cons, List.nodup_cons] at hnd0
    have hek : ¬ e.key ∈ rest.map PubEntry.key := hnd0.1
    have hnd2 : (rest.map PubEntry.key).Nodup := hnd0.2
    by_cases hm : strContains enc e.key = true
    · have hkeynotin : ¬ e.key ∈ found := fun hmem => hdisj e.key hmem (by simp)
      have hfound : found.contains e.key = false :=
        contains_false_of_not_mem found e.key hkeynotin
      have hdisj2 : ∀ k ∈ found ++ [e.key], ¬ k ∈ rest.map PubEntry.key := by
        intro k hk
        rcases List.mem_append.mp hk with hk1 | hk1
        · exact fun hr => hdisj k hk1 (by simp [hr])
        · rw [List.mem_singleton] at hk1
          subst hk1
          exact hek
      have hrec := ih m (found ++ [e.key]) hnd2 hdisj2
      simp only [scanLoop, hm, if_true, hfound, Bool.false_eq_true, if_false,
        pmUnregister_pmRegister, hrec]
      simp only [Prod.mk.injEq]
      refine ⟨by trivial, ?_, ?_⟩
      · simp [foundKeys, matchedEntries, hm, List.append_assoc]
      · simp [scanTrace, matchedEntries, hm, blockEvs, List.append_assoc]
    · have hm2 : strContains enc e.key = false := by
        revert hm
        cases strContains enc e.key <;> simp
      have hdisj2 : ∀ k ∈ found, ¬ k ∈ rest.map PubEntry.key := by
        intro k hk
        exact fun hr => hdisj k hk (by simp [hr])
      have hrec := ih m found hnd2 hdisj2
      simp only [scanLoop, hm2, Bool.false_eq_true, if_false, hrec]
      simp only [Prod.mk.injEq]
      refine ⟨by trivial, ?_, ?_⟩
      · simp [foundKeys, matchedEntries, hm2]
      · simp [scanTrace, matchedEntries, hm2]

theorem headerObj_inj (k1 k3 : String) (h : headerObj k1 = headerObj k3) : k1 = k3 := by
  simp [headerObj] at h
  exact h

theorem scan_pos (client : String) :
    ∀ (L m : List PubEntry) (tail : List Event),
    (∀ e ∈ L, keyIn m e.key = true) →
    (∀ k2, ¬ Event.sendText client (headerObj k2) ∈ tail) →
    ∀ (pre post : List Event) (k : String) (b : Bytes),
      (L.map (blockEvs [client])).flatten ++ tail =
        pre ++ Event.sendText client (headerObj k) :: Event.sendBytes client b :: post →
      0 < refOf (replayRef m pre) k := by
  intro L
  induction L with
  | nil =>
    intro m tail hkeys htail pre post k b heq
    exfalso
    apply htail k
    simp only [List.map_nil, List.flatten_nil, List.nil_append] at heq
    rw [heq]
    simp
  | cons e L2 ih =>
    intro m tail hkeys htail pre post k b heq
    have hblock : blockEvs [client] e =
        [Event.registerAtt e.key, Event.sendText client (headerObj e.key),
         Event.sendBytes client e.blob, Event.unregisterAtt e.key] := by
      simp [blockEvs]
    rw [List.map_cons, List.flatten_cons, hblock] at heq
    simp only [List.cons_append, List.nil_append] at heq
    cases pre with
    | nil => simp at heq
    | cons p1 pre1 =>
      simp only [List.cons_append] at heq
      rw [List.cons.injEq] at heq
      obtain ⟨hp1, heq1⟩ := heq
      cases pre1 with
      | nil =>
        simp only [List.nil_append] at heq1
        rw [List.cons.injEq] at heq1
        obtain ⟨hh, heq2⟩ := heq1
        have hk : e.key = k := by
          have hh2 : headerObj e.key = headerObj k := by
            have := hh
            simp only [Event.sendText.injEq] at this
            exact this.2
          exact headerObj_inj e.key k hh2
        subst hk
        rw [← hp1]
        have hrepl : replayRef m [Event.registerAtt e.key] = pmRegister m e.key := rfl
        rw [hrepl, refOf_pmRegister m e.key (hkeys e (by simp))]
        simp
      | cons p2 pre2 =>
        simp only [List.cons_append] at heq1
        rw [List.cons.injEq] at heq1
        obtain ⟨hp2, heq2⟩ := heq1
        cases pre2 with
        | nil =>
          simp only [List.nil_append] at heq2
          rw [List.cons.injEq] at heq2
          exact absurd heq2.1 (by simp)
        | cons p3 pre3 =>
          simp only [List.cons_append] at heq2
          rw [List.cons.injEq] at heq2
          obtain ⟨hp3, heq3⟩ := heq2
          cases pre3 with
          | nil =>
            simp only [List.nil_append] at heq3
            rw [List.cons.injEq] at heq3
            exact absurd heq3.1 (by simp)
          | cons p4 pre4 =>
            simp only [List.cons_append] at heq3
            rw [List.cons.injEq] at heq3
            obtain ⟨hp4, heq4⟩ := heq3
            have hrec := ih m tail (fun e2 he2 => hkeys e2 (by simp [he2])) htail
              pre4 post k b heq4
            rw [← hp1, ← hp2, ← hp3, ← hp4]
            have hstep : replayRef m (Event.registerAtt e.key ::
                Event.sendText client (headerObj e.key) ::
                Event.sendBytes client e.blob ::
                Event.unregisterAtt e.key :: pre4) =
                replayRef m pre4 := by
              show replayRef (pmUnregister (pmRegister m e.key) e.key) pre4 =
                replayRef m pre4
              rw [pmUnregister_pmRegister]
            rw [hstep]
            exact hrec

theorem resultWrapper_ne_headerObj (rpcid : String) (content : JVal) (k : String) :
    ¬ resultWrapper rpcid content = headerObj k := by
  simp [resultWrapper, headerObj]

/-- Claim C2 (amended): when a reply whose serialized JSON text contains keys
of the publish attachment map is sent on one connection, the emitted
trace consists of one block per matched key, in ATTACHMENT-MAP ITERATION
ORDER (not in first-appearance order in the text): the refcount
increment, the attachment header naming that single key, the binary
frame, and the refcount decrement; after all blocks, freeAttachments is
called on the set of keys found BEFORE (not after) the JSON message is
transmitted, and the JSON message is the final send.  Replaying the
refcount calls shows the refcount of a key is positive at the moment its
binary frame is sent. -/
theorem C2_attachment_send_protocol (st : HState) (rpcid : String) (content : JVal)
    (method client : String) (enc : String)
    (henc : serializeJ (resultWrapper rpcid content) = some enc)
    (hc : st.connections.contains client = true) (hne : (client == "") = false)
    (hnd : (st.pubMap.map PubEntry.key).Nodup)
    (hnonempty : st.pubMap.isEmpty = false) :
    (sendWrappedMessage st rpcid content method (some client) =
      .ok ({ st with pubMap := pmFree st.pubMap (foundKeys st.pubMap enc) },
        scanTrace st.pubMap enc [client] ++
          (Event.freeAtts (foundKeys st.pubMap enc) ::
            [Event.sendText client (resultWrapper rpcid content)]))) ∧
    (∀ (pre post : List Event) (k : String) (b : Bytes),
      scanTrace st.pubMap enc [client] ++
        (Event.freeAtts (foundKeys st.pubMap enc) ::
          [Event.sendText client (resultWrapper rpcid content)]) =
        pre ++ Event.sendText client (headerObj k) :: Event.sendBytes client b :: post →
      0 < refOf (replayRef st.pubMap pre) k) := by
  constructor
  · have hsc := scanLoop_closed enc [client] st.pubMap st.pubMap [] hnd
      (fun k hk => absurd hk (List.not_mem_nil k))
    have ht := targetsOf_single st.connections client hc hne
    simp [sendWrappedMessage, henc, ht, hnonempty, hsc]
  · intro pre post k b heq
    have hkeys : ∀ e ∈ matchedEntries st.pubMap enc, keyIn st.pubMap e.key = true := by
      intro e he
      have hmem : e ∈ st.pubMap := List.mem_of_mem_filter he
      rw [keyIn, List.find?_isSome]
      exact ⟨e, hmem, by simp⟩
    have htail : ∀ k2, ¬ Event.sendText client (headerObj k2) ∈
        (Event.freeAtts (foundKeys st.pubMap enc) ::
          [Event.sendText client (resultWrapper rpcid content)]) := by
      intro k2 hmem
      simp only [List.mem_cons] at hmem
      rcases hmem with h1 | h1 | h1
      · exact absurd h1 (by simp)
      · rw [Event.sendText.injEq] at h1
        exact resultWrapper_ne_headerObj rpcid content k2 h1.2.symm
      · simp at h1
    exact scan_pos client (matchedEntries st.pubMap enc) st.pubMap
      (Event.freeAtts (foundKeys st.pubMap enc) ::
        [Event.sendText client (resultWrapper rpcid content)])
      hkeys htail pre post k b heq

/-- Witness for C2 at a concrete one-key publish map. -/
theorem C2_attachment_send_protocol_witness :
    (serializeJ (resultWrapper "r" (.str "wslink_bin1")) =
      some "\x7b\"wslink\": \"1.0\", \"id\": \"r\", \"result\": \"wslink_bin1\"\x7d") ∧
    (((⟨[], [], [], ["c1"], "S", none, [⟨"wslink_bin1", [7], 0⟩]⟩ : HState).pubMap.map
      PubEntry.key).Nodup) ∧
    (sendWrappedMessage ⟨[], [], [], ["c1"], "S", none, [⟨"wslink_bin1", [7], 0⟩]⟩ "r"
        (.str "wslink_bin1") "" (some "c1") =
      .ok ({ (⟨[], [], [], ["c1"], "S", none, [⟨"wslink_bin1", [7], 0⟩]⟩ : HState) with
          pubMap := pmFree [⟨"wslink_bin1", [7], 0⟩]
            (foundKeys [⟨"wslink_bin1", [7], 0⟩]
              "\x7b\"wslink\": \"1.0\", \"id\": \"r\", \"result\": \"wslink_bin1\"\x7d") },
        scanTrace [⟨"wslink_bin1", [7], 0⟩]
            "\x7b\"wslink\": \"1.0\", \"id\": \"r\", \"result\": \"wslink_bin1\"\x7d" ["c1"] ++
          (Event.freeAtts (foundKeys [⟨"wslink_bin1", [7], 0⟩]
              "\x7b\"wslink\": \"1.0\", \"id\": \"r\", \"result\": \"wslink_bin1\"\x7d") ::
            [Event.sendText "c1" (resultWrapper "r" (.str "wslink_bin1"))]))) :=
  ⟨rfl, by simp,
    (C2_attachment_send_protocol ⟨[], [], [], ["c1"], "S", none, [⟨"wslink_bin1", [7], 0⟩]⟩
      "r" (.str "wslink_bin1") "" "c1"
      "\x7b\"wslink\": \"1.0\", \"id\": \"r\", \"result\": \"wslink_bin1\"\x7d"
      rfl rfl rfl (by simp) rfl).1⟩

/-- Claim C2 counterexample: the publish map stores the keys in the order
wslink_bin2, wslink_bin1 while the serialized reply text contains
wslink_bin1 first (at index 41) and wslink_bin2 second (at index 56).
The emitted trace sends the pair for wslink_bin2 first — map iteration
order, not first-appearance order — and calls freeAttachments (event
index 8) BEFORE the JSON message is transmitted (event index 9), while
the claim requires freeAttachments only after the JSON send. -/
theorem C2_counterexample :
    sendWrappedMessage ⟨[], [], [], ["c1"], "S", none,
        [⟨"wslink_bin2", [9], 0⟩, ⟨"wslink_bin1", [7], 0⟩]⟩ "r"
        (.arr [.str "wslink_bin1", .str "wslink_bin2"]) "" (some "c1") =
      .ok (⟨[], [], [], ["c1"], "S", none, []⟩,
        [.registerAtt "wslink_bin2", .sendText "c1" (headerObj "wslink_bin2"),
         .sendBytes "c1" [9], .unregisterAtt "wslink_bin2",
         .registerAtt "wslink_bin1", .sendText "c1" (headerObj "wslink_bin1"),
         .sendBytes "c1" [7], .unregisterAtt "wslink_bin1",
         .freeAtts ["wslink_bin2", "wslink_bin1"],
         .sendText "c1" (resultWrapper "r"
           (.arr [.str "wslink_bin1", .str "wslink_bin2"]))]) ∧
    serializeJ (resultWrapper "r" (.arr [.str "wslink_bin1", .str "wslink_bin2"])) =
      some "\x7b\"wslink\": \"1.0\", \"id\": \"r\", \"result\": [\"wslink_bin1\", \"wslink_bin2\"]\x7d" ∧
    firstOcc "\x7b\"wslink\": \"1.0\", \"id\": \"r\", \"result\": [\"wslink_bin1\", \"wslink_bin2\"]\x7d"
      "wslink_bin1" = some 41 ∧
    firstOcc "\x7b\"wslink\": \"1.0\", \"id\": \"r\", \"result\": [\"wslink_bin1\", \"wslink_bin2\"]\x7d"
      "wslink_bin2" = some 56 :=
  ⟨rfl, rfl, by decide, by decide⟩

end Wslink
